import Mathlib

/-!
Shallow embedding of the `python-video-converter` core
(`converter/__init__.py`, `converter/codecs/*.py`, `converter/formats.py`)
and proofs about it.

Python floats are modelled as exact rationals represented by an
unnormalized numerator/denominator pair (`Qv`) whose operations are plain
integer arithmetic, so that every definition evaluates by kernel
reduction.  All operations used by the source (multiplication, division,
comparison, `int()` truncation, `round()`) keep the denominator positive.

Python dictionaries are modelled as association lists in insertion order
(CPython dictionaries preserve insertion order); dictionary values are the
`PyVal` type below.
-/

/-- Exact rational stand-in for a Python float: numerator and denominator,
not necessarily reduced.  All constructors used below keep `den` positive. -/
structure Qv where
  num : ℤ
  den : ℤ
deriving DecidableEq

namespace Qv

/-- Embed an integer (`1.0 * n` coercions in the source). -/
def ofInt (z : ℤ) : Qv := ⟨z, 1⟩

/-- Python `a * b` on floats. -/
def mul (a b : Qv) : Qv := ⟨a.num * b.num, a.den * b.den⟩

/-- Python `a + b` on floats. -/
def add (a b : Qv) : Qv := ⟨a.num * b.den + b.num * a.den, a.den * b.den⟩

/-- Python `a / b` on floats (true division).  The result's denominator is
kept positive by moving the divisor's sign to the numerator.  Division by
zero (which raises in Python) returns 0; every call site below is guarded
by a non-zero check, mirroring the source. -/
def div (a b : Qv) : Qv :=
  if 0 < b.num then ⟨a.num * b.den, a.den * b.num⟩
  else if b.num < 0 then ⟨-(a.num * b.den), -(a.den * b.num)⟩
  else ⟨0, 1⟩

/-- Python `a < b` on floats (valid for positive denominators). -/
def lt (a b : Qv) : Prop := a.num * b.den < b.num * a.den

instance : Decidable (lt a b) := by unfold lt; infer_instance

/-- Python truthiness of a float: `0.0` is falsy. -/
def truthy (a : Qv) : Prop := a.num ≠ 0

instance : Decidable (truthy a) := by unfold truthy; infer_instance

/-- Python `int(x)` on a float: truncation toward zero
(valid for positive denominators; `/` on `ℤ` is floor division here). -/
def trunc (a : Qv) : ℤ := if 0 ≤ a.num then a.num / a.den else -((-a.num) / a.den)

/-- Mathematical round-to-nearest (halves up), `⌊q + 1/2⌋`, used to state
the spec's `round(width / aspect)` property (valid for positive
denominators). -/
def mround (a : Qv) : ℤ := (2 * a.num + a.den) / (2 * a.den)

/-- Python 3 `round(x)` (banker's rounding: halves go to the even
integer), used by the source for sample-aspect-ratio height correction
(valid for positive denominators). -/
def pyround (a : Qv) : ℤ :=
  let f := a.num / a.den
  let r2 := 2 * (a.num - f * a.den)
  if r2 < a.den then f
  else if a.den < r2 then f + 1
  else if f % 2 = 0 then f else f + 1

end Qv

/-- Model of a Python value as it appears in an options mapping. -/
inductive PyVal where
  | vStr (s : String)
  | vInt (n : ℤ)
  | vFloat (q : Qv)
  | vBool (b : Bool)
  | vNone
  | vDict (d : List (String × PyVal))

/-- Python dictionary with string keys, in insertion order. -/
abbrev PyDict := List (String × PyVal)

/-- Python `d[k]` / `d.get(k)`: first binding of `k`. -/
def dlookup (d : PyDict) (k : String) : Option PyVal :=
  match d with
  | [] => none
  | (k', v) :: rest => if k = k' then some v else dlookup rest k

/-- Python `k in d`. -/
def dmem (d : PyDict) (k : String) : Prop := (dlookup d k).isSome

instance : Decidable (dmem d k) := by unfold dmem; infer_instance

/-- Python `d[k] = v`: replace in place if present, else append. -/
def dset (d : PyDict) (k : String) (v : PyVal) : PyDict :=
  match d with
  | [] => [(k, v)]
  | (k', v') :: rest => if k = k' then (k', v) :: rest else (k', v') :: dset rest k v

/-- Python `del d[k]`. -/
def ddel (d : PyDict) (k : String) : PyDict :=
  match d with
  | [] => []
  | (k', v') :: rest => if k = k' then rest else (k', v') :: ddel rest k

/-- Parse a decimal digit string (helper for Python `int(str)`). -/
def parseDigits : List Char → Option ℕ → Option ℕ
  | [], acc => acc
  | c :: cs, acc =>
    if '0' ≤ c ∧ c ≤ '9' then
      parseDigits cs (some ((acc.getD 0) * 10 + (c.toNat - '0'.toNat)))
    else none

/-- Python `int(s)` on a string: optional sign followed by digits
(whitespace and underscore tolerance is not modelled; no call site
in this development exercises them). -/
def pyParseInt (s : String) : Option ℤ :=
  match s.data with
  | '-' :: rest => (parseDigits rest none).map (fun n => -(n : ℤ))
  | ds => (parseDigits ds none).map (fun n => (n : ℤ))

/-- Python `str(v)`.  Floats and nested dictionaries never reach a
string-typed option in the source, so their rendering is abstracted. -/
def pyStr (v : PyVal) : String :=
  match v with
  | .vStr s => s
  | .vInt n => toString n
  | .vBool b => if b then "True" else "False"
  | .vNone => "None"
  | .vFloat q => toString q.num ++ "/" ++ toString q.den
  | .vDict _ => "dict"

/-- Python `int(v)` as used by schema coercion: `none` means the coercion
raised (and the key is silently dropped by `safe_options`). -/
def pyToInt (v : PyVal) : Option ℤ :=
  match v with
  | .vInt n => some n
  | .vBool b => some (if b then 1 else 0)
  | .vFloat q => some q.trunc
  | .vStr s => pyParseInt s
  | .vNone => none
  | .vDict _ => none

/-- Python `float(v)` as used by schema coercion.  Only integral strings
are parsed; no float-typed option in this development is fed a
fractional string. -/
def pyToFloat (v : PyVal) : Option Qv :=
  match v with
  | .vFloat q => some q
  | .vInt n => some (Qv.ofInt n)
  | .vBool b => some (Qv.ofInt (if b then 1 else 0))
  | .vStr s => (pyParseInt s).map Qv.ofInt
  | .vNone => none
  | .vDict _ => none

/-- Python `bool(v)` (total). -/
def pyToBool (v : PyVal) : Bool :=
  match v with
  | .vBool b => b
  | .vInt n => decide (n ≠ 0)
  | .vFloat q => decide q.truthy
  | .vStr s => decide (s ≠ "")
  | .vNone => false
  | .vDict d => !d.isEmpty

/-- Expected scalar type of one schema entry (`encoder_options` /
`format_options` values `str` / `int` / `float` / `bool`). -/
inductive CoerceType where
  | cStr
  | cInt
  | cFloat
  | cBool

/-- Option schema: mapping of option name to expected scalar type. -/
abbrev Schema := List (String × CoerceType)

/-- Apply one schema type to a raw value, `none` on coercion failure. -/
def coerce (t : CoerceType) (v : PyVal) : Option PyVal :=
  match t with
  | .cStr => some (.vStr (pyStr v))
  | .cInt => (pyToInt v).map .vInt
  | .cFloat => (pyToFloat v).map .vFloat
  | .cBool => some (.vBool (pyToBool v))

/-- Look up a key in a schema. -/
def schemaLookup (sch : Schema) (k : String) : Option CoerceType :=
  match sch with
  | [] => none
  | (k', t) :: rest => if k = k' then some t else schemaLookup rest k

/-- Transcription of `BaseCodec.safe_options` / `BaseFormat.safe_options`:
only schema-known keys are kept, each value type-coerced; coercion
failures drop the key silently. -/
def safe_options (sch : Schema) (opts : PyDict) : PyDict :=
  opts.filterMap (fun kv =>
    match schemaLookup sch kv.1 with
    | some t => (coerce t kv.2).map (fun v => (kv.1, v))
    | none => none)

/-- Python truthiness of an int-or-None variable (`if w:`): `None` and `0`
are falsy. -/
def optTruthy (x : Option ℤ) : Prop :=
  match x with
  | none => False
  | some n => n ≠ 0

instance : Decidable (optTruthy x) := by unfold optTruthy; cases x <;> infer_instance

/-- Aspect ratio computation of `VideoCodec._aspect_corrections`
(video.py lines 100-105): `aspect = (1.0 * sw) / (1.0 * sh)`, divided by
the sample aspect ratio when that is truthy, inverted when `rotate` is
`'90'` or `'270'`. -/
def aspectOf (sw sh : ℤ) (sar : Option Qv) (rotate : Option String) : Qv :=
  let aspect := Qv.div (Qv.mul ⟨1, 1⟩ (Qv.ofInt sw)) (Qv.mul ⟨1, 1⟩ (Qv.ofInt sh))
  let aspect :=
    match sar with
    | some s => if s.truthy then Qv.div aspect s else aspect
    | none => aspect
  if rotate = some "90" ∨ rotate = some "270" then Qv.div ⟨1, 1⟩ aspect else aspect

/-- Transcription of `VideoCodec._aspect_corrections` (video.py lines
93-154).  A `none` result models a raised `AssertionError` (a failed
`assert h0 > h` / `assert w0 > w` / `assert h1 < h` / `assert w1 < w`, or
the final `assert False, mode` for an unknown mode).  The `%d` offsets
`dh`/`dw` are the Python floats `(h0 - h) / 2` etc.; `%d` truncates them,
which for these positive values is integer halving. -/
def aspect_corrections (sw sh w h : Option ℤ) (sar : Option Qv)
    (rotate : Option String) (mode : String) :
    Option (Option ℤ × Option ℤ × Option String) :=
  if ¬ optTruthy sw ∨ ¬ optTruthy sh then some (w, h, none)
  else
    let aspect := aspectOf (sw.getD 0) (sh.getD 0) sar rotate
    if ¬ optTruthy w ∧ ¬ optTruthy h then some (w, h, none)
    else if optTruthy w ∧ ¬ optTruthy h then
      some (w, some ((Qv.div (Qv.mul ⟨1, 1⟩ (Qv.ofInt (w.getD 0))) aspect).trunc), none)
    else if optTruthy h ∧ ¬ optTruthy w then
      some (some ((Qv.mul aspect (Qv.ofInt (h.getD 0))).trunc), h, none)
    else
      let wv := w.getD 0
      let hv := h.getD 0
      if (Qv.mul aspect (Qv.ofInt hv)).trunc = wv then some (w, h, none)
      else if mode = "stretch" then some (w, h, none)
      else
        let target_aspect := Qv.div (Qv.mul ⟨1, 1⟩ (Qv.ofInt wv)) (Qv.mul ⟨1, 1⟩ (Qv.ofInt hv))
        if mode = "crop" then
          if Qv.lt aspect target_aspect then
            let h0 := (Qv.div (Qv.ofInt wv) aspect).trunc
            if hv < h0 then
              some (w, some h0,
                some ("crop=" ++ toString wv ++ ":" ++ toString hv ++ ":0:" ++ toString ((h0 - hv) / 2)))
            else none
          else
            let w0 := (Qv.mul (Qv.ofInt hv) aspect).trunc
            if wv < w0 then
              some (some w0, h,
                some ("crop=" ++ toString wv ++ ":" ++ toString hv ++ ":" ++ toString ((w0 - wv) / 2) ++ ":0"))
            else none
        else if mode = "pad" then
          if Qv.lt target_aspect aspect then
            let h1 := (Qv.div (Qv.mul ⟨1, 1⟩ (Qv.ofInt wv)) aspect).trunc
            if h1 < hv then
              some (w, some h1,
                some ("pad=" ++ toString wv ++ ":" ++ toString hv ++ ":0:" ++ toString ((hv - h1) / 2)))
            else none
          else
            let w1 := (Qv.mul (Qv.ofInt hv) aspect).trunc
            if w1 < wv then
              some (some w1, h,
                some ("pad=" ++ toString wv ++ ":" ++ toString hv ++ ":" ++ toString ((wv - w1) / 2) ++ ":0"))
            else none
        else none

example : aspect_corrections (some 640) (some 480) (some 320) (some 200) none none "crop" =
    some (some 320, some 240, some "crop=320:200:0:20") := rfl
example : aspect_corrections (some 640) (some 480) (some 320) (some 200) none none "pad" =
    some (some 266, some 200, some "pad=320:200:27:0") := rfl

/-- Descriptor of one concrete codec class: its public name (`codec_name`,
`none` for the null codec), engine name (`ffmpeg_codec_name`), option
schema (`encoder_options`) and the two family-specific hooks. -/
structure CodecDef where
  codec_name : Option String
  ffmpeg_codec_name : String
  encoder_options : Schema
  codec_specific_parse_options : PyDict → PyDict
  codec_specific_produce_ffmpeg_list : PyDict → List String

/-- Comparison `opt['codec'] != self.codec_name` of
`BaseCodec.parse_options`: the stored value is compared with the class's
name (a string or Python `None`). -/
def codecNameMatches (v : PyVal) (name : Option String) : Prop :=
  match v, name with
  | .vStr s, some n => s = n
  | .vNone, none => True
  | _, _ => False

instance : Decidable (codecNameMatches v name) := by
  unfold codecNameMatches
  rcases v with s | n | q | b | _ | d <;> rcases name with _ | n' <;> infer_instance

/-- Transcription of `BaseCodec.parse_options` (codecs/__init__.py lines
36-39): raise `ValueError` unless the caller's declared codec name matches
the descriptor. -/
def baseCodecCheck (cd : CodecDef) (opt : PyDict) : Except String Unit :=
  match dlookup opt "codec" with
  | none => .error "invalid codec name"
  | some v => if codecNameMatches v cd.codec_name then .ok () else .error "invalid codec name"

/-- The `if k in safe: v = safe[k]; if v < lo or v > hi: del safe[k]`
range-check pattern shared by the audio/video/subtitle compilers.  Values
under these keys are always `vInt` after schema coercion. -/
def delIfOutOfRange (safe : PyDict) (k : String) (lo hi : ℤ) : PyDict :=
  match dlookup safe k with
  | some (.vInt n) => if n < lo ∨ hi < n then ddel safe k else safe
  | _ => safe

/-- Read an int-typed key back out of the safe options. -/
def safeInt (safe : PyDict) (k : String) : Option ℤ :=
  match dlookup safe k with
  | some (.vInt n) => some n
  | _ => none

/-- Read a str-typed key back out of the safe options. -/
def safeStr (safe : PyDict) (k : String) : Option String :=
  match dlookup safe k with
  | some (.vStr s) => some s
  | _ => none

/-- Read a float-typed key back out of the safe options. -/
def safeFloat (safe : PyDict) (k : String) : Option Qv :=
  match dlookup safe k with
  | some (.vFloat q) => some q
  | _ => none

/-- Shared `encoder_options` of `AudioCodec` (audio.py lines 21-26). -/
def audioEncoderOptions : Schema :=
  [("codec", .cStr), ("channels", .cInt), ("bitrate", .cInt), ("samplerate", .cInt)]

/-- Transcription of `AudioCodec.parse_options` (audio.py lines 28-59),
parameterized by the concrete codec descriptor. -/
def AudioCodec.parse_options (cd : CodecDef) (opt : PyDict) : Except String (List String) := do
  let _ ← baseCodecCheck cd opt
  let safe := safe_options cd.encoder_options opt
  let safe := delIfOutOfRange safe "channels" 1 12
  let safe := delIfOutOfRange safe "bitrate" 8 512
  let safe := delIfOutOfRange safe "samplerate" 1000 50000
  let safe := cd.codec_specific_parse_options safe
  let optlist := ["-acodec", cd.ffmpeg_codec_name]
  let optlist := optlist ++
    (match safeInt safe "channels" with
     | some c => ["-ac", toString c]
     | none => [])
  let optlist := optlist ++
    (match safeInt safe "bitrate" with
     | some br => ["-ab", toString br ++ "k"]
     | none => [])
  let optlist := optlist ++
    (match safeInt safe "samplerate" with
     | some f => ["-ar", toString f]
     | none => [])
  pure (optlist ++ cd.codec_specific_produce_ffmpeg_list safe)

/-- Shared `encoder_options` of `SubtitleCodec` (subtitle.py lines 21-26). -/
def subtitleEncoderOptions : Schema :=
  [("codec", .cStr), ("language", .cStr), ("forced", .cInt), ("default", .cInt)]

/-- Transcription of `SubtitleCodec.parse_options` (subtitle.py lines
28-52). -/
def SubtitleCodec.parse_options (cd : CodecDef) (opt : PyDict) : Except String (List String) := do
  let _ ← baseCodecCheck cd opt
  let safe := safe_options cd.encoder_options opt
  let safe := delIfOutOfRange safe "forced" 0 1
  let safe := delIfOutOfRange safe "default" 0 1
  let safe :=
    match safeStr safe "language" with
    | some l => if 3 < l.length then ddel safe "language" else safe
    | none => safe
  let safe := cd.codec_specific_parse_options safe
  pure (["-scodec", cd.ffmpeg_codec_name] ++ cd.codec_specific_produce_ffmpeg_list safe)

/-- Shared `encoder_options` of `VideoCodec` (video.py lines 44-59). -/
def videoEncoderOptions : Schema :=
  [("codec", .cStr), ("pix_fmt", .cStr), ("bitrate", .cInt), ("max_bitrate", .cInt),
   ("fps", .cInt), ("keyframe_interval", .cInt), ("width", .cInt), ("height", .cInt),
   ("mode", .cStr), ("src_width", .cInt), ("src_height", .cInt),
   ("display_aspect_ratio", .cFloat), ("sample_aspect_ratio", .cFloat), ("rotate", .cStr)]

/-- The `formats_supported` pixel-format table of `VideoCodec` (video.py
lines 61-91). -/
def formats_supported : List String :=
  ["yuv420p", "yuyv422", "rgb24", "bgr24", "yuv422p", "yuv444p", "yuv410p",
   "yuv411p", "gray", "monow", "monob", "pal8", "yuvj420p", "yuvj422p",
   "yuvj444p", "xvmcmc", "xvmcidct", "uyvy422", "uyyvyy411", "bgr8",
   "bgr4", "bgr4_byte", "rgb8", "rgb4", "rgb4_byte", "nv12", "nv21",
   "argb", "rgba", "abgr", "bgra", "gray16be", "gray16le", "yuv440p",
   "yuvj440p", "yuva420p", "vdpau_h264", "vdpau_mpeg1", "vdpau_mpeg2",
   "vdpau_wmv3", "vdpau_vc1", "rgb48be", "rgb48le", "rgb565be", "rgb565le",
   "rgb555be", "rgb555le", "bgr565be", "bgr565le", "bgr555be", "bgr555le",
   "vaapi_moco", "vaapi_idct", "vaapi_vld", "yuv420p16le", "yuv420p16be",
   "yuv422p16le2", "yuv422p16be2", "yuv444p16le", "yuv444p16be", "vdpau_mpeg4",
   "dxva2_vld", "rgb444le", "rgb444be", "bgr444le", "bgr444be", "ya8", "bgr48be",
   "bgr48le", "yuv420p9be", "yuv420p9le", "yuv420p10be", "yuv420p10le", "yuv422p10be",
   "yuv422p10le", "yuv444p9be", "yuv444p9le", "yuv444p10be0", "yuv444p10le0",
   "yuv422p9be", "yuv422p9le", "vda_vld", "gbrp", "gbrp9be", "gbrp9le", "gbrp10be0",
   "gbrp10le0", "gbrp16be8", "gbrp16le8", "yuva420p9be", "yuva420p9le", "yuva422p9be",
   "yuva422p9le", "yuva444p9be", "yuva444p9le", "yuva420p10be", "yuva420p10le",
   "yuva422p10be", "yuva422p10le", "yuva444p10be", "yuva444p10le", "yuva420p16be",
   "yuva420p16le", "yuva422p16be", "yuva422p16le", "yuva444p16be", "yuva444p16le",
   "vdpau", "xyz12le6", "xyz12be6", "nv16", "nv20le", "nv20be", "yvyu422", "vda",
   "ya16be", "ya16le", "qsv", "mmal", "d3d11va_vld", "rgba64be", "rgba64le",
   "bgra64be", "bgra64le", "0rgb", "rgb0", "0bgr", "bgr0", "yuva444p", "yuva422p",
   "yuv420p12be", "yuv420p12le", "yuv420p14be", "yuv420p14le", "yuv422p12be",
   "yuv422p12le", "yuv422p14be", "yuv422p14le", "yuv444p12be6", "yuv444p12le6",
   "yuv444p14be", "yuv444p14le", "gbrp12be6", "gbrp12le6", "gbrp14be2", "gbrp14le2",
   "gbrap2", "gbrap16be", "gbrap16le", "yuvj411p", "bayer_bggr8", "bayer_rggb8",
   "bayer_gbrg8", "bayer_grbg8", "bayer_bggr16le", "bayer_bggr16be", "bayer_rggb16le",
   "bayer_rggb16be", "bayer_gbrg16le", "bayer_gbrg16be", "bayer_grbg16le",
   "bayer_grbg16be", "yuv440p10le", "yuv440p10be", "yuv440p12le", "yuv440p12be",
   "ayuv64le", "ayuv64be", "videotoolbox_vld"]

/-- Transcription of `VideoCodec.parse_options` (video.py lines 156-263),
parameterized by the concrete codec descriptor.  The `error` results model
the raised `ValueError` of the base-class codec-name check and the
`AssertionError` of `_aspect_corrections`. -/
def VideoCodec.parse_options (cd : CodecDef) (opt : PyDict) : Except String (List String) := do
  let _ ← baseCodecCheck cd opt
  let safe := safe_options cd.encoder_options opt
  let safe := delIfOutOfRange safe "fps" 1 120
  let safe := delIfOutOfRange safe "keyframe_interval" 1 1500
  let safe := delIfOutOfRange safe "bitrate" 16 15000
  let safe := delIfOutOfRange safe "max_bitrate" 16 15000
  let safe :=
    match safeStr safe "pix_fmt" with
    | some p => if p ∈ formats_supported then ddel safe "pix_fmt" else safe
    | none => safe
  let sar := safeFloat safe "sample_aspect_ratio"
  let rotate := safeStr safe "rotate"
  let w : Option ℤ :=
    match safeInt safe "width" with
    | some n => if n < 16 ∨ 4000 < n then none else some (n - n % 2)
    | none => none
  let h : Option ℤ :=
    match safeInt safe "height" with
    | some n =>
      if n < 16 ∨ 3000 < n then none
      else
        let n :=
          match sar with
          | some s => if s.truthy then Qv.pyround (Qv.div (Qv.ofInt n) s) else n
          | none => n
        some (n - n % 2)
    | none => none
  let (w, h) := if rotate = some "90" ∨ rotate = some "270" then (h, w) else (w, h)
  let (sw, sh) : Option ℤ × Option ℤ :=
    if dmem safe "src_width" ∧ dmem safe "src_height" then
      let sw := safeInt safe "src_width"
      let sh := safeInt safe "src_height"
      if ¬ optTruthy sw ∨ ¬ optTruthy sh then (none, none) else (sw, sh)
    else (none, none)
  let mode :=
    match safeStr safe "mode" with
    | some m => if m = "stretch" ∨ m = "crop" ∨ m = "pad" then m else "stretch"
    | none => "stretch"
  let ow := w
  let oh := h
  match aspect_corrections sw sh w h sar rotate mode with
  | none => .error "AssertionError"
  | some (w, h, filters) =>
    let safe := dset safe "width" (match w with | some n => .vInt n | none => .vNone)
    let safe := dset safe "height" (match h with | some n => .vInt n | none => .vNone)
    let safe := dset safe "aspect_filters"
      (match filters with | some f => .vStr f | none => .vNone)
    let safe :=
      if optTruthy w ∧ optTruthy h then
        dset safe "aspect" (.vStr (toString (w.getD 0) ++ ":" ++ toString (h.getD 0)))
      else safe
    let safe := cd.codec_specific_parse_options safe
    let w := safeInt safe "width"
    let h := safeInt safe "height"
    let filters := safeStr safe "aspect_filters"
    let optlist := ["-vcodec", cd.ffmpeg_codec_name]
    let optlist := optlist ++
      ["-pix_fmt", match dlookup safe "pix_fmt" with | some v => pyStr v | none => "yuv420p"]
    let optlist := optlist ++
      (match safeInt safe "fps" with
       | some f => ["-r", toString f]
       | none => [])
    let optlist := optlist ++
      (match safeInt safe "keyframe_interval" with
       | some ki => ["-g", toString ki]
       | none => [])
    let optlist := optlist ++
      (match safeInt safe "bitrate" with
       | some br => ["-vb", toString br ++ "k"]
       | none => [])
    let optlist := optlist ++
      (match safeInt safe "max_bitrate" with
       | some mb => ["-maxrate", toString mb ++ "k", "-bufsize", toString mb ++ "k"]
       | none => [])
    let optlist := optlist ++
      (if optTruthy w ∧ optTruthy h then
        ["-s", toString (w.getD 0) ++ "x" ++ toString (h.getD 0)] ++
          (if optTruthy ow ∧ optTruthy oh then
            ["-aspect", toString (ow.getD 0) ++ ":" ++ toString (oh.getD 0)]
          else [])
      else [])
    let optlist := optlist ++
      (match filters with
       | some f => if f ≠ "" then ["-vf", f] else []
       | none => [])
    pure (optlist ++ cd.codec_specific_produce_ffmpeg_list safe)

/-- Float variant of the range-check pattern (used by `AacCodec`). -/
def delIfOutOfRangeF (safe : PyDict) (k : String) (lo hi : ℤ) : PyDict :=
  match dlookup safe k with
  | some (.vFloat q) =>
    if Qv.lt q (Qv.ofInt lo) ∨ Qv.lt (Qv.ofInt hi) q then ddel safe k else safe
  | _ => safe

/-- Hook of `VorbisCodec._codec_specific_produce_ffmpeg_list`. -/
def vorbisProduce (safe : PyDict) : List String :=
  match safeInt safe "quality" with
  | some q => ["-qscale:a", toString q]
  | none => []

/-- Descriptor of `VorbisCodec` (audio.py lines 84-102). -/
def VorbisCodec : CodecDef :=
  { codec_name := some "vorbis", ffmpeg_codec_name := "libvorbis",
    encoder_options := audioEncoderOptions ++ [("quality", .cInt)],
    codec_specific_parse_options := id,
    codec_specific_produce_ffmpeg_list := vorbisProduce }

/-- Hook of `AacCodec._codec_specific_produce_ffmpeg_list` (the
`aac_experimental_enable` flags, then the float quality). -/
def aacProduce (safe : PyDict) : List String :=
  ["-strict", "experimental"] ++
    (match dlookup safe "quality" with
     | some v => ["-qscale:a", pyStr v]
     | none => [])

/-- Descriptor of `AacCodec` (audio.py lines 105-130). -/
def AacCodec : CodecDef :=
  { codec_name := some "aac", ffmpeg_codec_name := "aac",
    encoder_options := audioEncoderOptions ++ [("quality", .cFloat)],
    codec_specific_parse_options := fun safe => delIfOutOfRangeF safe "quality" 0 9,
    codec_specific_produce_ffmpeg_list := aacProduce }

/-- Descriptor of `FdkAacCodec` (audio.py lines 133-157). -/
def FdkAacCodec : CodecDef :=
  { codec_name := some "libfdk_aac", ffmpeg_codec_name := "libfdk_aac",
    encoder_options := audioEncoderOptions ++ [("quality", .cInt)],
    codec_specific_parse_options := fun safe => delIfOutOfRange safe "quality" 1 5,
    codec_specific_produce_ffmpeg_list := fun safe =>
      match safeInt safe "quality" with
      | some q => ["-vbr", toString q]
      | none => [] }

/-- Descriptor of `Ac3Codec` (audio.py lines 160-166). -/
def Ac3Codec : CodecDef :=
  { codec_name := some "ac3", ffmpeg_codec_name := "ac3",
    encoder_options := audioEncoderOptions,
    codec_specific_parse_options := id,
    codec_specific_produce_ffmpeg_list := fun _ => [] }

/-- Descriptor of `FlacCodec` (audio.py lines 169-175). -/
def FlacCodec : CodecDef :=
  { codec_name := some "flac", ffmpeg_codec_name := "flac",
    encoder_options := audioEncoderOptions,
    codec_specific_parse_options := id,
    codec_specific_produce_ffmpeg_list := fun _ => [] }

/-- Descriptor of `DtsCodec` (audio.py lines 178-184). -/
def DtsCodec : CodecDef :=
  { codec_name := some "dts", ffmpeg_codec_name := "dts",
    encoder_options := audioEncoderOptions,
    codec_specific_parse_options := id,
    codec_specific_produce_ffmpeg_list := fun _ => [] }

/-- Descriptor of `Mp3Codec` (audio.py lines 187-211). -/
def Mp3Codec : CodecDef :=
  { codec_name := some "mp3", ffmpeg_codec_name := "libmp3lame",
    encoder_options := audioEncoderOptions ++ [("quality", .cInt)],
    codec_specific_parse_options := fun safe => delIfOutOfRange safe "quality" 0 9,
    codec_specific_produce_ffmpeg_list := fun safe =>
      match safeInt safe "quality" with
      | some q => ["-qscale:a", toString q]
      | none => [] }

/-- Descriptor of `Mp2Codec` (audio.py lines 214-220). -/
def Mp2Codec : CodecDef :=
  { codec_name := some "mp2", ffmpeg_codec_name := "mp2",
    encoder_options := audioEncoderOptions,
    codec_specific_parse_options := id,
    codec_specific_produce_ffmpeg_list := fun _ => [] }

/-- Descriptor of `WmaCodec` (audio.py lines 223-229). -/
def WmaCodec : CodecDef :=
  { codec_name := some "wma", ffmpeg_codec_name := "wmav2",
    encoder_options := audioEncoderOptions,
    codec_specific_parse_options := id,
    codec_specific_produce_ffmpeg_list := fun _ => [] }

/-- Descriptor of `TheoraCodec` (video.py lines 284-310). -/
def TheoraCodec : CodecDef :=
  { codec_name := some "theora", ffmpeg_codec_name := "libtheora",
    encoder_options := videoEncoderOptions ++ [("quality", .cInt)],
    codec_specific_parse_options := fun safe => delIfOutOfRange safe "quality" 0 10,
    codec_specific_produce_ffmpeg_list := fun safe =>
      match safeInt safe "quality" with
      | some q => ["-qscale:v", toString q]
      | none => [] }

/-- Hook of `H264Codec._codec_specific_produce_ffmpeg_list`. -/
def h264Produce (safe : PyDict) : List String :=
  (match safeStr safe "preset" with
   | some p => ["-preset", p]
   | none => []) ++
  (match safeInt safe "quality" with
   | some q => ["-crf", toString q]
   | none => []) ++
  (match safeStr safe "profile" with
   | some p => ["-profile:v", p]
   | none => []) ++
  (match safeStr safe "level" with
   | some l => ["-level", l]
   | none => []) ++
  (match safeStr safe "tune" with
   | some t => ["-tune", t]
   | none => [])

/-- Descriptor of `H264Codec` (video.py lines 313-353). -/
def H264Codec : CodecDef :=
  { codec_name := some "h264", ffmpeg_codec_name := "libx264",
    encoder_options := videoEncoderOptions ++
      [("preset", .cStr), ("quality", .cInt), ("profile", .cStr), ("level", .cStr),
       ("tune", .cStr)],
    codec_specific_parse_options := fun safe => delIfOutOfRange safe "quality" 0 51,
    codec_specific_produce_ffmpeg_list := h264Produce }

/-- Hook of `VaapiH264Codec._codec_specific_produce_ffmpeg_list`. -/
def vaapiH264Produce (safe : PyDict) : List String :=
  ["-vf", "format=nv12|vaapi,hwupload"] ++
  (match safeStr safe "preset" with
   | some p => ["-preset", p]
   | none => []) ++
  (match safeInt safe "quality" with
   | some q => ["-crf", toString q]
   | none => []) ++
  (match safeStr safe "profile" with
   | some p => ["-profile:v", p]
   | none => []) ++
  (match safeStr safe "level" with
   | some l => ["-level", l]
   | none => [])

/-- Descriptor of `VaapiH264Codec` (video.py lines 356-394). -/
def VaapiH264Codec : CodecDef :=
  { codec_name := some "h264_vaapi", ffmpeg_codec_name := "h264_vaapi",
    encoder_options := videoEncoderOptions ++
      [("preset", .cStr), ("quality", .cInt), ("profile", .cStr), ("level", .cStr)],
    codec_specific_parse_options := fun safe => delIfOutOfRange safe "quality" 0 51,
    codec_specific_produce_ffmpeg_list := vaapiH264Produce }

/-- Descriptor of `DivxCodec` (video.py lines 397-420). -/
def DivxCodec : CodecDef :=
  { codec_name := some "divx", ffmpeg_codec_name := "mpeg4",
    encoder_options := videoEncoderOptions ++ [("quality", .cInt)],
    codec_specific_parse_options := fun safe => delIfOutOfRange safe "quality" 1 31,
    codec_specific_produce_ffmpeg_list := fun safe =>
      match safeInt safe "quality" with
      | some q => ["-qscale:v", toString q]
      | none => [] }

/-- Hook of `Vp8Codec._codec_specific_parse_options`: quality in 0..63;
a thread count below 1 is dropped. -/
def vp8ParseHook (safe : PyDict) : PyDict :=
  let safe := delIfOutOfRange safe "quality" 0 63
  match safeInt safe "threads" with
  | some t => if t < 1 then ddel safe "threads" else safe
  | none => safe

/-- Hook of `Vp8Codec._codec_specific_produce_ffmpeg_list`. -/
def vp8Produce (safe : PyDict) : List String :=
  (match safeInt safe "quality" with
   | some q =>
     ["-crf", toString q] ++
       (match safeInt safe "max_bitrate" with
        | some mb => ["-vb", toString mb ++ "k"]
        | none => [])
   | none => []) ++
  (match safeInt safe "threads" with
   | some t => ["-threads", toString t]
   | none => [])

/-- Descriptor of `Vp8Codec` (video.py lines 423-455). -/
def Vp8Codec : CodecDef :=
  { codec_name := some "vp8", ffmpeg_codec_name := "libvpx",
    encoder_options := videoEncoderOptions ++ [("quality", .cInt), ("threads", .cInt)],
    codec_specific_parse_options := vp8ParseHook,
    codec_specific_produce_ffmpeg_list := vp8Produce }

/-- Descriptor of `Vp9Codec` (video.py lines 458-483). -/
def Vp9Codec : CodecDef :=
  { codec_name := some "vp9", ffmpeg_codec_name := "libvpx-vp9",
    encoder_options := videoEncoderOptions ++ [("deadline", .cStr), ("cpu-used", .cInt)],
    codec_specific_parse_options := fun safe =>
      match safeInt safe "cpu-used" with
      | some t => if t < 0 then ddel safe "cpu-used" else safe
      | none => safe,
    codec_specific_produce_ffmpeg_list := fun safe =>
      (match safeStr safe "deadline" with
       | some d => ["-deadline", d]
       | none => []) ++
      (match safeInt safe "cpu-used" with
       | some t => ["-cpu-used", toString t]
       | none => []) }

/-- Descriptor of `H263Codec` (video.py lines 486-490). -/
def H263Codec : CodecDef :=
  { codec_name := some "h263", ffmpeg_codec_name := "h263",
    encoder_options := videoEncoderOptions,
    codec_specific_parse_options := id,
    codec_specific_produce_ffmpeg_list := fun _ => [] }

/-- Descriptor of `FlvCodec` (video.py lines 493-497). -/
def FlvCodec : CodecDef :=
  { codec_name := some "flv", ffmpeg_codec_name := "flv",
    encoder_options := videoEncoderOptions,
    codec_specific_parse_options := id,
    codec_specific_produce_ffmpeg_list := fun _ => [] }

/-- Hook of `MpegCodec._codec_specific_parse_options` (video.py lines
515-533): when width and height are truthy, prepend an explicit
`aspect=w:h` expression to the aspect filters, then range-check quality. -/
def mpegParseHook (safe : PyDict) : PyDict :=
  let w := safeInt safe "width"
  let h := safeInt safe "height"
  let safe :=
    if optTruthy w ∧ optTruthy h then
      let tmp := "aspect=" ++ toString (w.getD 0) ++ ":" ++ toString (h.getD 0)
      match dlookup safe "aspect_filters" with
      | some (.vStr f) => dset safe "aspect_filters" (.vStr (tmp ++ "," ++ f))
      | _ => dset safe "aspect_filters" (.vStr tmp)
    else safe
  delIfOutOfRange safe "quality" 1 31

/-- Hook shared by the MPEG codecs' flag production. -/
def mpegProduce (safe : PyDict) : List String :=
  match safeInt safe "quality" with
  | some q => ["-qscale:v", toString q]
  | none => []

/-- Descriptor of `Mpeg1Codec` (video.py lines 542-546). -/
def Mpeg1Codec : CodecDef :=
  { codec_name := some "mpeg1", ffmpeg_codec_name := "mpeg1video",
    encoder_options := videoEncoderOptions ++ [("quality", .cInt)],
    codec_specific_parse_options := mpegParseHook,
    codec_specific_produce_ffmpeg_list := mpegProduce }

/-- Descriptor of `Mpeg2Codec` (video.py lines 549-553). -/
def Mpeg2Codec : CodecDef :=
  { codec_name := some "mpeg2", ffmpeg_codec_name := "mpeg2video",
    encoder_options := videoEncoderOptions ++ [("quality", .cInt)],
    codec_specific_parse_options := mpegParseHook,
    codec_specific_produce_ffmpeg_list := mpegProduce }

/-- Descriptor of `WmvCodec` (video.py lines 556-580). -/
def WmvCodec : CodecDef :=
  { codec_name := some "wmv", ffmpeg_codec_name := "msmpeg4",
    encoder_options := videoEncoderOptions ++ [("quality", .cInt)],
    codec_specific_parse_options := fun safe => delIfOutOfRange safe "quality" 1 31,
    codec_specific_produce_ffmpeg_list := fun safe =>
      match safeInt safe "quality" with
      | some q => ["-qscale:v", toString q]
      | none => [] }

/-- Descriptor of `MOVTextCodec`, `SSA`, `SubRip`, `DVBSub`, `DVDSub`
(subtitle.py lines 78-121): plain subtitle codecs with the base hooks. -/
def plainSubtitleCodec (name engine : String) : CodecDef :=
  { codec_name := some name, ffmpeg_codec_name := engine,
    encoder_options := subtitleEncoderOptions,
    codec_specific_parse_options := id,
    codec_specific_produce_ffmpeg_list := fun _ => [] }

/-- The audio codec table built by `Converter.__init__` from
`codec_lists["audio"]`, keyed by `codec_name` (which is Python `None` for
the null codec): lookup of `opt_audio['codec']`, returning the codec's
`parse_options`.  `AudioNullCodec` and `AudioCopyCodec` override
`parse_options` outright (audio.py lines 62-81). -/
def audio_codecs (c : PyVal) : Option (PyDict → Except String (List String)) :=
  match c with
  | .vNone => some (fun _ => .ok ["-an"])
  | .vStr s =>
    if s = "copy" then some (fun _ => .ok ["-acodec", "copy"])
    else if s = "vorbis" then some (AudioCodec.parse_options VorbisCodec)
    else if s = "aac" then some (AudioCodec.parse_options AacCodec)
    else if s = "libfdk_aac" then some (AudioCodec.parse_options FdkAacCodec)
    else if s = "ac3" then some (AudioCodec.parse_options Ac3Codec)
    else if s = "flac" then some (AudioCodec.parse_options FlacCodec)
    else if s = "dts" then some (AudioCodec.parse_options DtsCodec)
    else if s = "mp3" then some (AudioCodec.parse_options Mp3Codec)
    else if s = "mp2" then some (AudioCodec.parse_options Mp2Codec)
    else if s = "wma" then some (AudioCodec.parse_options WmaCodec)
    else none
  | _ => none

/-- The video codec table (`VideoNullCodec` and `VideoCopyCodec` override
`parse_options` outright, video.py lines 266-281). -/
def video_codecs (c : PyVal) : Option (PyDict → Except String (List String)) :=
  match c with
  | .vNone => some (fun _ => .ok ["-vn"])
  | .vStr s =>
    if s = "copy" then some (fun _ => .ok ["-vcodec", "copy"])
    else if s = "theora" then some (VideoCodec.parse_options TheoraCodec)
    else if s = "h264" then some (VideoCodec.parse_options H264Codec)
    else if s = "h264_vaapi" then some (VideoCodec.parse_options VaapiH264Codec)
    else if s = "divx" then some (VideoCodec.parse_options DivxCodec)
    else if s = "vp8" then some (VideoCodec.parse_options Vp8Codec)
    else if s = "vp9" then some (VideoCodec.parse_options Vp9Codec)
    else if s = "h263" then some (VideoCodec.parse_options H263Codec)
    else if s = "flv" then some (VideoCodec.parse_options FlvCodec)
    else if s = "mpeg1" then some (VideoCodec.parse_options Mpeg1Codec)
    else if s = "mpeg2" then some (VideoCodec.parse_options Mpeg2Codec)
    else if s = "wmv" then some (VideoCodec.parse_options WmvCodec)
    else none
  | _ => none

/-- The subtitle codec table (`SubtitleNullCodec` and `SubtitleCopyCodec`
override `parse_options` outright, subtitle.py lines 55-75). -/
def subtitle_codecs (c : PyVal) : Option (PyDict → Except String (List String)) :=
  match c with
  | .vNone => some (fun _ => .ok ["-sn"])
  | .vStr s =>
    if s = "copy" then some (fun _ => .ok ["-scodec", "copy"])
    else if s = "mov_text" then some (SubtitleCodec.parse_options (plainSubtitleCodec "mov_text" "mov_text"))
    else if s = "ass" then some (SubtitleCodec.parse_options (plainSubtitleCodec "ass" "ass"))
    else if s = "subrip" then some (SubtitleCodec.parse_options (plainSubtitleCodec "subrip" "subrip"))
    else if s = "dvbsub" then some (SubtitleCodec.parse_options (plainSubtitleCodec "dvbsub" "dvbsub"))
    else if s = "dvdsub" then some (SubtitleCodec.parse_options (plainSubtitleCodec "dvdsub" "dvdsub"))
    else none
  | _ => none

/-- Untyped value flowing from `_format_specific_parse_options` into
`_format_specific_produce_ffmpeg_list`: normally the safe-options dict,
but `Mp4Format`'s override returns a flag list instead. -/
inductive FormatHookVal where
  | asDict (d : PyDict)
  | asList (l : List String)

/-- Descriptor of one concrete format class (formats.py). -/
structure FormatDef where
  format_name : Option String
  ffmpeg_format_name : String
  format_options : Schema
  format_specific_parse_options : PyDict → FormatHookVal
  format_specific_produce_ffmpeg_list : FormatHookVal → List String

/-- Transcription of `BaseFormat.parse_options` (formats.py lines 37-44). -/
def BaseFormat.parse_options (fd : FormatDef) (opt : PyDict) : Except String (List String) :=
  let safe := safe_options fd.format_options opt
  match safeStr safe "format" with
  | some s =>
    if fd.format_name = some s then
      let safe2 := fd.format_specific_parse_options safe
      .ok (["-f", fd.ffmpeg_format_name] ++ fd.format_specific_produce_ffmpeg_list safe2)
    else .error "invalid Format format"
  | none => .error "invalid Format format"

/-- Base `format_options` schema (formats.py lines 33-35). -/
def baseFormatOptions : Schema := [("format", .cStr)]

/-- Descriptor for the plain formats with no extra options or hooks. -/
def plainFormat (name engine : String) : FormatDef :=
  { format_name := some name, ffmpeg_format_name := engine,
    format_options := baseFormatOptions,
    format_specific_parse_options := .asDict,
    format_specific_produce_ffmpeg_list := fun _ => [] }

/-- Descriptor of `MovFormat` (formats.py lines 112-123): it declares the
`faststart` option but overrides neither hook. -/
def MovFormat : FormatDef :=
  { format_name := some "mov", ffmpeg_format_name := "mov",
    format_options := baseFormatOptions ++ [("faststart", .cBool)],
    format_specific_parse_options := .asDict,
    format_specific_produce_ffmpeg_list := fun _ => [] }

/-- Hook `Mp4Format._format_specific_parse_options` (formats.py lines
138-142): it builds and RETURNS the movflags flag list in the position
where the base class expects the refined safe-options mapping. -/
def mp4FormatSpecificParse (safe : PyDict) : FormatHookVal :=
  .asList
    (match dlookup safe "faststart" with
     | some v => if pyToBool v then ["-movflags", "faststart"] else []
     | none => [])

/-- Descriptor of `Mp4Format` (formats.py lines 126-142).  Note that
`_format_specific_produce_ffmpeg_list` is NOT overridden, so it is the
base hook returning `[]`. -/
def Mp4Format : FormatDef :=
  { format_name := some "mp4", ffmpeg_format_name := "mp4",
    format_options := baseFormatOptions ++ [("faststart", .cBool)],
    format_specific_parse_options := mp4FormatSpecificParse,
    format_specific_produce_ffmpeg_list := fun _ => [] }

/-- The format table built by `Converter.__init__` from `format_list`,
keyed by `format_name`, looked up with `opt['format']`. -/
def formats (f : PyVal) : Option FormatDef :=
  match f with
  | .vStr s =>
    if s = "ogg" then some (plainFormat "ogg" "ogg")
    else if s = "avi" then some (plainFormat "avi" "avi")
    else if s = "mkv" then some (plainFormat "mkv" "matroska")
    else if s = "webm" then some (plainFormat "webm" "webm")
    else if s = "flv" then some (plainFormat "flv" "flv")
    else if s = "mov" then some MovFormat
    else if s = "mp4" then some Mp4Format
    else if s = "mpg" then some (plainFormat "mpg" "mpegts")
    else if s = "mp3" then some (plainFormat "mp3" "mp3")
    else if s = "wmv" then some (plainFormat "wmv" "msmpeg4")
    else none
  | _ => none

/-- Audio block of `Converter.parse_options` (__init__.py lines 65-79):
resolve the audio sub-mapping (forced to the null codec when absent or in
two-pass pass 1), look the codec up and compile its flags. -/
def Converter.audioOptions (opt : PyDict) (twopass : Option ℕ) : Except String (List String) := do
  let opt_audio ←
    if ¬ dmem opt "audio" ∨ twopass = some 1 then Except.ok [("codec", PyVal.vNone)]
    else
      match dlookup opt "audio" with
      | some (.vDict d) =>
        if dmem d "codec" then Except.ok d else Except.error "Invalid audio codec specification"
      | _ => Except.error "Invalid audio codec specification"
  let c := (dlookup opt_audio "codec").getD .vNone
  match audio_codecs c with
  | none => Except.error ("Requested unknown audio codec " ++ pyStr c)
  | some parseFn => parseFn opt_audio

/-- Video block of `Converter.parse_options` (__init__.py lines 81-95). -/
def Converter.videoOptions (opt : PyDict) : Except String (List String) := do
  let opt_video ←
    if ¬ dmem opt "video" then Except.ok [("codec", PyVal.vNone)]
    else
      match dlookup opt "video" with
      | some (.vDict d) =>
        if dmem d "codec" then Except.ok d else Except.error "Invalid video codec specification"
      | _ => Except.error "Invalid video codec specification"
  let c := (dlookup opt_video "codec").getD .vNone
  match video_codecs c with
  | none => Except.error ("Requested unknown video codec " ++ pyStr c)
  | some parseFn => parseFn opt_video

/-- Subtitle block of `Converter.parse_options` (__init__.py lines
97-111). -/
def Converter.subtitleOptions (opt : PyDict) : Except String (List String) := do
  let opt_subtitle ←
    if ¬ dmem opt "subtitle" then Except.ok [("codec", PyVal.vNone)]
    else
      match dlookup opt "subtitle" with
      | some (.vDict d) =>
        if dmem d "codec" then Except.ok d else Except.error "Invalid subtitle codec specification"
      | _ => Except.error "Invalid subtitle codec specification"
  let c := (dlookup opt_subtitle "codec").getD .vNone
  match subtitle_codecs c with
  | none => Except.error ("Requested unknown subtitle codec " ++ pyStr c)
  | some parseFn => parseFn opt_subtitle

/-- Format block of `Converter.parse_options` (__init__.py lines 51-60). -/
def Converter.formatOptions (opt : PyDict) : Except String (List String) :=
  if ¬ dmem opt "format" then .error "Format not specified"
  else
    let f := (dlookup opt "format").getD .vNone
    match formats f with
    | none => .error ("Requested unknown format: " ++ pyStr f)
    | some fd => BaseFormat.parse_options fd opt

/-- Map block of `Converter.parse_options` (__init__.py lines 113-118):
the flags appended to the format options.  A Python `bool` passes the
`isinstance(m, int)` check because `bool` subclasses `int`. -/
def Converter.mapOptions (opt : PyDict) : Except String (List String) :=
  if dmem opt "map" then
    match dlookup opt "map" with
    | some (.vInt m) => .ok ["-map", toString m]
    | some (.vBool b) => .ok ["-map", if b then "True" else "False"]
    | _ => .error "map needs to be int"
  else .ok []

/-- Transcription of `Converter.parse_options` (__init__.py lines 46-129).
The `twopass` argument is `some 1` / `some 2` for the two passes and
`none` otherwise (the source is called with `None`, `False`, `1` or `2`;
only `1` and `2` are distinguished). -/
def Converter.parse_options (optv : PyVal) (twopass : Option ℕ) : Except String (List String) := do
  match optv with
  | .vDict opt => do
    let format_options ← Converter.formatOptions opt
    if ¬ dmem opt "audio" ∧ ¬ dmem opt "video" then
      Except.error "Neither audio nor video streams requested"
    else do
      let audio_options ← Converter.audioOptions opt twopass
      let video_options ← Converter.videoOptions opt
      let subtitle_options ← Converter.subtitleOptions opt
      let map_options ← Converter.mapOptions opt
      let optlist := audio_options ++ video_options ++ subtitle_options ++
        (format_options ++ map_options)
      pure (optlist ++
        (match twopass with
         | some 1 => ["-pass", "1"]
         | some 2 => ["-pass", "2"]
         | _ => []))
  | _ => .error "Invalid output specification"








/-- Engine-reported media info, as consumed by `Converter.convert` /
`Converter.segment`: `video` holds `(video_width, video_height)` when a
video stream exists, `audio` whether an audio stream exists, `duration`
the value of `info.format.duration`. -/
structure MediaInfo where
  video : Option (ℤ × ℤ)
  audio : Bool
  duration : Qv

/-- Observable event of one driven-to-completion `convert` call:
an engine process start (`self.ffmpeg.convert(...)` with its pre-options
and flag list), a yielded progress fraction, or a raised error. -/
inductive ConvEv where
  | engineStart (pre : List String) (flags : List String)
  | progress (q : Qv)
  | err (msg : String)
deriving DecidableEq

/-- Python `s.split(' ')` (helper; splits on every single space). -/
def splitChars : List Char → List Char → List String
  | [], acc => [String.mk acc.reverse]
  | c :: cs, acc =>
    if c = ' ' then String.mk acc.reverse :: splitChars cs []
    else splitChars cs (c :: acc)

/-- Python `s.split(' ')`. -/
def pySplitSpace (s : String) : List String := splitChars s.data []

/-- Option preprocessing of `Converter.convert` (__init__.py lines
184-191), value-level: add `src_width`/`src_height` to a copy of the video
sub-mapping and extract `ffmpeg_custom_launch_opts` as the pre-option
list.  An `error` models the `AttributeError` Python raises when
`options['video']` is not a mapping (`.copy()`) or the launch-opts value
is not a string (`.split`). -/
def Converter.convertPrepValue (optd : PyDict) (info : MediaInfo) :
    Except String (PyDict × List String) :=
  if info.video.isSome ∧ dmem optd "video" then
    match dlookup optd "video" with
    | some (.vDict vd) =>
      let vw := (info.video.getD (0, 0)).1
      let vh := (info.video.getD (0, 0)).2
      let vd := dset (dset vd "src_width" (.vInt vw)) "src_height" (.vInt vh)
      let optd := dset optd "video" (.vDict vd)
      match dlookup vd "ffmpeg_custom_launch_opts" with
      | some (.vStr s) => .ok (optd, (pySplitSpace s).filter (fun a => a ≠ ""))
      | none => .ok (optd, (pySplitSpace "").filter (fun a => a ≠ ""))
      | some _ => .error "AttributeError"
    | some _ => .error "AttributeError"
    | none => .ok (optd, [])
  else .ok (optd, [])

/-- Transcription of `Converter.convert` (__init__.py lines 131-210) as
the sequence of observable events when the returned generator is driven to
exhaustion.  `timecodes1` are the raw timecodes the engine reports during
the first (or only) `ffmpeg.convert` run, `timecodes2` during the second
run of a two-pass job. -/
def Converter.convert (infileExists : Bool) (probeResult : Option MediaInfo)
    (options : PyVal) (twopass : Bool) (timecodes1 timecodes2 : List Qv) : List ConvEv :=
  match options with
  | .vDict optd =>
    if ¬ infileExists then [.err "Source file does not exist"]
    else
      match probeResult with
      | none => [.err "Cannot get information about source file"]
      | some info =>
        if info.video = none ∧ info.audio = false then
          [.err "Source file has no audio or video streams"]
        else
          match Converter.convertPrepValue optd info with
          | .error e => [.err e]
          | .ok (optd, preoptlist) =>
            if Qv.lt info.duration ⟨1, 100⟩ then [.err "Zero-length media"]
            else if twopass then
              match Converter.parse_options (.vDict optd) (some 1) with
              | .error e => [.err e]
              | .ok optlist1 =>
                .engineStart preoptlist optlist1 ::
                  (timecodes1.map (fun t => ConvEv.progress (Qv.div t info.duration)) ++
                    (match Converter.parse_options (.vDict optd) (some 2) with
                     | .error e => [.err e]
                     | .ok optlist2 =>
                       .engineStart preoptlist optlist2 ::
                         timecodes2.map
                           (fun t => ConvEv.progress (Qv.add ⟨1, 2⟩ (Qv.div t info.duration)))))
            else
              match Converter.parse_options (.vDict optd) none with
              | .error e => [.err e]
              | .ok optlist =>
                .engineStart preoptlist optlist ::
                  timecodes1.map (fun t => ConvEv.progress (Qv.div t info.duration))
  | _ => [.err "Invalid options"]

/-- The progress fractions yielded by one `convert` call. -/
def convYields (evs : List ConvEv) : List Qv :=
  evs.filterMap (fun e => match e with | .progress q => some q | _ => none)

/-- The error messages raised during one `convert` call. -/
def errsOf (evs : List ConvEv) : List String :=
  evs.filterMap (fun e => match e with | .err m => some m | _ => none)

/-- Whether an event is a raised error. -/
def isErr (e : ConvEv) : Prop := ∃ msg, e = ConvEv.err msg

instance : Decidable (isErr e) := by
  unfold isErr; cases e <;> simp <;> infer_instance

/-- Observable event of one `segment` call: a working-directory change,
an engine process start, a yielded integer percentage, or a raised
error. -/
inductive SegEv where
  | chdir (d : String)
  | engineStart (flags : List String)
  | progress (n : ℤ)
  | err (msg : String)
deriving DecidableEq

/-- The fixed flag template of `Converter.segment` (__init__.py lines
230-233). -/
def segmentOptlist (output_file output_directory : String) : List String :=
  ["-flags", "-global_header", "-f", "segment", "-segment_time", "1",
   "-segment_list", output_file, "-segment_list_type", "m3u8",
   "-segment_format", "mpegts",
   "-segment_list_entry_prefix", output_directory ++ "/",
   "-map", "0", "-map", "-0:d", "-bsf", "h264_mp4toannexb",
   "-vcodec", "copy", "-acodec", "copy"]

/-- Transcription of `Converter.segment` (__init__.py lines 212-237) as
the sequence of observable events when the generator is driven.
`currentDirectory` is the process working directory on entry
(`os.getcwd()`).  When `engineFails` is true the engine's timecode
iterator raises after reporting `timecodes`; the exception propagates out
of the generator, so everything after the loop — in particular the
restoring `os.chdir(current_directory)` — is skipped (there is no
try/finally).  The `os.makedirs` call is a file-system operation outside
the modelled state. -/
def Converter.segment (infileExists : Bool) (probeResult : Option MediaInfo)
    (currentDirectory workingDirectory output_file output_directory : String)
    (timecodes : List Qv) (engineFails : Bool) : List SegEv :=
  if ¬ infileExists then [.err "Source file does not exist"]
  else
    match probeResult with
    | none => [.err "Cannot get information about source file"]
    | some info =>
      if info.video = none ∧ info.audio = false then
        [.err "Source file has no audio or video streams"]
      else
        .chdir workingDirectory ::
          .engineStart (segmentOptlist output_file output_directory) ::
          (timecodes.map
            (fun t => SegEv.progress (Qv.trunc (Qv.div (Qv.mul ⟨100, 1⟩ t) info.duration))) ++
            (if engineFails then [.err "FFMpegError"] else [.chdir currentDirectory]))

/-- The process working directory after a sequence of segment events,
starting from `initial`. -/
def finalCwd (evs : List SegEv) (initial : String) : String :=
  evs.foldl (fun cur e => match e with | .chdir d => d | _ => cur) initial

/-- Heap value for the aliasing model of `convert`'s option handling: a
scalar, or a reference to a dictionary living in the heap.  (The caller's
request maps `'video'` etc. to references of nested dictionaries.) -/
inductive HVal where
  | hStr (s : String)
  | hInt (n : ℤ)
  | hFloat (q : Qv)
  | hBool (b : Bool)
  | hNone
  | hRef (r : ℕ)
deriving DecidableEq

/-- Dictionary contents in the heap model. -/
abbrev HDict := List (String × HVal)

/-- Heap: reference number to dictionary contents. -/
abbrev Heap := List (ℕ × HDict)

/-- Dictionary lookup in the heap model. -/
def hdlookup (d : HDict) (k : String) : Option HVal :=
  match d with
  | [] => none
  | (k', v) :: rest => if k = k' then some v else hdlookup rest k

/-- Dictionary item assignment in the heap model. -/
def hdset (d : HDict) (k : String) (v : HVal) : HDict :=
  match d with
  | [] => [(k, v)]
  | (k', v') :: rest => if k = k' then (k', v) :: rest else (k', v') :: hdset rest k v

/-- Dereference a heap reference. -/
def heapGet (h : Heap) (r : ℕ) : Option HDict :=
  match h with
  | [] => none
  | (r', d) :: rest => if r = r' then some d else heapGet rest r

/-- Overwrite the dictionary behind an existing reference (in-place
mutation of a Python dict object). -/
def heapSet (h : Heap) (r : ℕ) (d : HDict) : Heap :=
  match h with
  | [] => []
  | (r', d') :: rest => if r = r' then (r, d) :: rest else (r', d') :: heapSet rest r d

/-- A reference number strictly larger than every allocated one. -/
def freshRef (h : Heap) : ℕ :=
  (h.map Prod.fst).foldr (fun a b => max a b) 0 + 1

/-- Allocate a new dictionary object (`dict.copy()` allocates). -/
def heapAlloc (h : Heap) (d : HDict) : Heap × ℕ :=
  let r := freshRef h
  (h ++ [(r, d)], r)

/-- Heap-level transcription of the option preprocessing of
`Converter.convert` (__init__.py lines 184-191), the only statements in
`convert` that assign into dictionaries:

  * `options = options.copy()` — allocate a shallow copy;
  * `v = options['video'] = options['video'].copy()` — allocate a shallow
    copy of the video sub-dictionary and store the new reference in the
    copied outer dictionary;
  * `v['src_width'] = ...; v['src_height'] = ...` — assign into the copy.

`parse_options` and everything after it only read the request; every
dictionary or list they build (`safe_options` results, flag lists) is
freshly created, as transcribed by the value-level functions above.
Returns the final heap and the reference `convert` continues with. -/
def Converter.convertPrepHeap (h : Heap) (optionsRef : ℕ) (hasVideoInfo : Bool)
    (vw vh : ℤ) : Heap × ℕ :=
  match heapGet h optionsRef with
  | none => (h, optionsRef)
  | some optionsDict =>
    if hasVideoInfo ∧ (hdlookup optionsDict "video").isSome then
      let alloc1 := heapAlloc h optionsDict
      let h1 := alloc1.1
      let newOptionsRef := alloc1.2
      match hdlookup optionsDict "video" with
      | some (.hRef videoRef) =>
        match heapGet h1 videoRef with
        | some videoDict =>
          let alloc2 := heapAlloc h1 videoDict
          let h2 := alloc2.1
          let newVideoRef := alloc2.2
          let h3 := heapSet h2 newOptionsRef (hdset optionsDict "video" (.hRef newVideoRef))
          let h4 := heapSet h3 newVideoRef
            (hdset (hdset videoDict "src_width" (.hInt vw)) "src_height" (.hInt vh))
          (h4, newOptionsRef)
        | none => (h1, newOptionsRef)
      | _ => (h1, newOptionsRef)
    else (h, optionsRef)

/-!
## Theorems

One theorem per claim of the specification review, preceded by shared
helper lemmas.
-/

/-- C1: the claim states that during two-pass conversion each pass-1
fraction is `timecode / duration` halved (hence in `[0, 0.5)`) and each
pass-2 fraction is halved and offset by `0.5` (hence in `[0.5, 1.0]`),
the whole sequence non-decreasing and bounded by 1.  The code
(__init__.py lines 196-205) does NOT halve: pass 1 yields
`timecode / duration` and pass 2 yields `0.5 + timecode / duration`.
Driving a two-pass conversion of a 10-second source whose engine reports
timecodes 2 and 10 in each pass yields `[2/10, 10/10, 14/20, 30/20]`:
the pass-1 fraction `10/10 = 1` exceeds `0.5`, the sequence decreases
from `10/10` to `14/20`, and the final fraction `30/20 = 1.5` exceeds
`1`. -/
theorem C1_twopass_progress_not_halved :
    convYields (Converter.convert true (some ⟨none, true, ⟨10, 1⟩⟩)
        (.vDict [("format", .vStr "ogg"), ("audio", .vDict [("codec", .vNone)])])
        true [⟨2, 1⟩, ⟨10, 1⟩] [⟨2, 1⟩, ⟨10, 1⟩]) =
      [⟨2, 10⟩, ⟨10, 10⟩, ⟨14, 20⟩, ⟨30, 20⟩] ∧
    Qv.lt ⟨1, 2⟩ ⟨10, 10⟩ ∧
    Qv.lt ⟨14, 20⟩ ⟨10, 10⟩ ∧
    Qv.lt ⟨1, 1⟩ ⟨30, 20⟩ := by
  refine ⟨rfl, ?_, ?_, ?_⟩ <;> decide

/-- C5: the claim states that an mp4 request with a true `faststart`
option compiles to a flag list containing the pair
`('-movflags', 'faststart')` after the format selector.  In the code,
`Mp4Format._format_specific_parse_options` (formats.py lines 138-142)
builds that pair but returns it in the position where
`BaseFormat.parse_options` (lines 37-44) expects the refined safe-options
mapping; the emitted flags come from `_format_specific_produce_ffmpeg_list`,
which `Mp4Format` does not override and which returns `[]`.  The compiled
flag list for `{format: 'mp4', faststart: True}` is therefore exactly
`['-f', 'mp4']` — the movflags pair the hook built is discarded. -/
theorem C5_mp4_faststart_movflags_never_emitted :
    BaseFormat.parse_options Mp4Format
        [("format", .vStr "mp4"), ("faststart", .vBool true)] = .ok ["-f", "mp4"] ∧
    mp4FormatSpecificParse
        (safe_options Mp4Format.format_options
          [("format", .vStr "mp4"), ("faststart", .vBool true)]) =
      .asList ["-movflags", "faststart"] := ⟨rfl, rfl⟩

/-- C7: the claim states the working directory is restored on every exit
path of the segment workflow, including engine failure.  The code
(__init__.py lines 228-237) performs `os.chdir(working_directory)` before
the conversion loop and `os.chdir(current_directory)` after it with no
try/finally, so when the engine raises mid-stream the restore is skipped:
driving a segment job of a 10-second source whose engine reports timecode
1 and then fails leaves the process in the caller-named working directory
(while the same run with a healthy engine does restore it). -/
theorem C7_segment_cwd_not_restored_on_failure :
    Converter.segment true (some ⟨some (640, 400), true, ⟨10, 1⟩⟩)
        "/prev" "/work" "out.m3u8" "segs" [⟨1, 1⟩] true =
      [.chdir "/work", .engineStart (segmentOptlist "out.m3u8" "segs"),
       .progress 10, .err "FFMpegError"] ∧
    finalCwd (Converter.segment true (some ⟨some (640, 400), true, ⟨10, 1⟩⟩)
        "/prev" "/work" "out.m3u8" "segs" [⟨1, 1⟩] true) "/prev" = "/work" ∧
    finalCwd (Converter.segment true (some ⟨some (640, 400), true, ⟨10, 1⟩⟩)
        "/prev" "/work" "out.m3u8" "segs" [⟨1, 1⟩] false) "/prev" = "/prev" :=
  ⟨rfl, rfl, rfl⟩

set_option maxHeartbeats 1000000 in
/-- C3: in crop mode with known source dimensions and both target
dimensions given at a mismatched aspect ratio (exactly the runs in which
`_aspect_corrections` returns a filter expression), the returned pre-filter
box dominates the requested target box; in pad mode it is dominated; and
the spec's concrete scenario holds: resolving
`(source=640x400, target=320x240, mode=crop)` returns the box `384x240`
with filter `crop=320:240:32:0`.  The strict `assert h0 > h` / `assert
w0 > w` guards of video.py lines 132/137/145/150 make the corrected axis
strictly larger (crop) or smaller (pad); the other axis is returned
unchanged. -/
theorem C3_crop_pad_box_invariant :
    (∀ sw sh w h sar rotate w2 h2 f,
      aspect_corrections sw sh w h sar rotate "crop" = some (w2, h2, some f) →
      ∃ wv hv w2v h2v, w = some wv ∧ h = some hv ∧ w2 = some w2v ∧ h2 = some h2v ∧
        wv ≤ w2v ∧ hv ≤ h2v) ∧
    (∀ sw sh w h sar rotate w2 h2 f,
      aspect_corrections sw sh w h sar rotate "pad" = some (w2, h2, some f) →
      ∃ wv hv w2v h2v, w = some wv ∧ h = some hv ∧ w2 = some w2v ∧ h2 = some h2v ∧
        w2v ≤ wv ∧ h2v ≤ hv) ∧
    aspect_corrections (some 640) (some 400) (some 320) (some 240) none none "crop" =
      some (some 384, some 240, some "crop=320:240:32:0") := by
  refine ⟨?_, ?_, rfl⟩
  · intro sw sh w h sar rotate w2 h2 f hyp
    simp only [aspect_corrections] at hyp
    rw [if_neg (show ¬ (("crop" : String) = "stretch") by decide)] at hyp
    simp only [if_true] at hyp
    generalize hA : aspectOf (sw.getD 0) (sh.getD 0) sar rotate = A at hyp
    rcases w with _ | wv <;> rcases h with _ | hv <;>
      split_ifs at hyp <;>
      simp only [Option.some.injEq, Prod.mk.injEq, reduceCtorEq, and_false, false_and] at hyp
    all_goals simp only [optTruthy, Option.getD_some, ne_eq, not_false_eq_true,
      not_true_eq_false, false_and, and_false, true_and, and_true, not_not, not_or] at *
    all_goals
      first
      | (obtain ⟨e1, e2, e3⟩ := hyp
         exact ⟨wv, hv, _, _, rfl, rfl, e1.symm, e2.symm, by omega, by omega⟩)
      | omega
  · intro sw sh w h sar rotate w2 h2 f hyp
    simp only [aspect_corrections] at hyp
    rw [if_neg (show ¬ (("pad" : String) = "stretch") by decide),
        if_neg (show ¬ (("pad" : String) = "crop") by decide)] at hyp
    simp only [if_true] at hyp
    generalize hA : aspectOf (sw.getD 0) (sh.getD 0) sar rotate = A at hyp
    rcases w with _ | wv <;> rcases h with _ | hv <;>
      split_ifs at hyp <;>
      simp only [Option.some.injEq, Prod.mk.injEq, reduceCtorEq, and_false, false_and] at hyp
    all_goals simp only [optTruthy, Option.getD_some, ne_eq, not_false_eq_true,
      not_true_eq_false, false_and, and_false, true_and, and_true, not_not, not_or] at *
    all_goals
      first
      | (obtain ⟨e1, e2, e3⟩ := hyp
         exact ⟨wv, hv, _, _, rfl, rfl, e1.symm, e2.symm, by omega, by omega⟩)
      | omega

theorem Qv.mul_one_left (a : Qv) : Qv.mul ⟨1, 1⟩ a = a := by
  cases a; simp [Qv.mul]

theorem Qv.div_num_den_pos {a b : Qv} (ha : 0 < a.num) (had : 0 < a.den)
    (hb : 0 < b.num) (hbd : 0 < b.den) :
    0 < (Qv.div a b).num ∧ 0 < (Qv.div a b).den := by
  unfold Qv.div
  rw [if_pos hb]
  exact ⟨mul_pos ha hbd, mul_pos had hb⟩

theorem aspectOf_pos (sw sh : ℤ) (sar : Option Qv) (rotate : Option String)
    (hsw : 0 < sw) (hsh : 0 < sh)
    (hsar : ∀ s, sar = some s → 0 ≤ s.num ∧ 0 < s.den) :
    0 < (aspectOf sw sh sar rotate).num ∧ 0 < (aspectOf sw sh sar rotate).den := by
  unfold aspectOf
  simp only [Qv.mul_one_left]
  have hbase : 0 < (Qv.div (Qv.ofInt sw) (Qv.ofInt sh)).num ∧
      0 < (Qv.div (Qv.ofInt sw) (Qv.ofInt sh)).den :=
    Qv.div_num_den_pos hsw one_pos hsh one_pos
  have hmid : ∀ x : Qv, 0 < x.num → 0 < x.den →
      0 < (match sar with
           | some s => if s.truthy then Qv.div x s else x
           | none => x).num ∧
      0 < (match sar with
           | some s => if s.truthy then Qv.div x s else x
           | none => x).den := by
    intro x hx hxd
    cases hs : sar with
    | none => exact ⟨hx, hxd⟩
    | some s =>
      obtain ⟨hsn, hsd⟩ := hsar s hs
      show 0 < (if s.truthy then Qv.div x s else x).num ∧
        0 < (if s.truthy then Qv.div x s else x).den
      by_cases ht : s.truthy
      · rw [if_pos ht]
        have hpos : 0 < s.num := lt_of_le_of_ne hsn (Ne.symm ht)
        exact Qv.div_num_den_pos hx hxd hpos hsd
      · rw [if_neg ht]; exact ⟨hx, hxd⟩
  have hmid2 := hmid _ hbase.1 hbase.2
  by_cases hr : rotate = some "90" ∨ rotate = some "270"
  · rw [if_pos hr]
    exact Qv.div_num_den_pos one_pos one_pos hmid2.1 hmid2.2
  · rw [if_neg hr]
    exact hmid2

theorem Qv.trunc_eq_ediv_of_nonneg {a : Qv} (h : 0 ≤ a.num) : a.trunc = a.num / a.den := by
  unfold Qv.trunc
  rw [if_pos h]

theorem Qv.mround_trunc_bounds {a : Qv} (hn : 0 ≤ a.num) (hd : 0 < a.den) :
    a.trunc ≤ a.mround ∧ a.mround ≤ a.trunc + 1 := by
  rw [Qv.trunc_eq_ediv_of_nonneg hn]
  unfold Qv.mround
  have hrepr : a.num / a.den = 2 * a.num / (2 * a.den) :=
    (Int.mul_ediv_mul_of_pos a.num a.den (by norm_num)).symm
  constructor
  · rw [hrepr]
    exact Int.ediv_le_ediv (by positivity) (by omega)
  · have hplus : (2 * a.num + 1 * (2 * a.den)) / (2 * a.den) = 2 * a.num / (2 * a.den) + 1 :=
      Int.add_mul_ediv_right (2 * a.num) 1 (by positivity)
    have hle : (2 * a.num + a.den) / (2 * a.den) ≤ (2 * a.num + 1 * (2 * a.den)) / (2 * a.den) :=
      Int.ediv_le_ediv (by positivity) (by omega)
    rw [hrepr]
    omega

set_option maxHeartbeats 1000000 in
/-- C9: with known positive source dimensions and exactly one positive
target dimension given, `_aspect_corrections` derives the missing
dimension from the aspect ratio — `source_w / source_h`, divided by the
sample aspect ratio when that is present and truthy, inverted on
90/270-degree rotation — by integer truncation (`h = int(w / aspect)`
when only the width is given, video.py line 112; `w = int(aspect * h)`
when only the height is given, line 115) and returns it with no filter;
in both directions the derived dimension agrees with the claim's
rounded quotient to within ±1.  The sample aspect ratio, when present,
is assumed non-negative with positive denominator (it is a physical
pixel ratio reported by the engine probe). -/
theorem C9_missing_dimension_from_aspect (sw sh : ℤ) (sar : Option Qv)
    (rotate : Option String) (mode : String)
    (hsw : 0 < sw) (hsh : 0 < sh)
    (hsar : ∀ s, sar = some s → 0 ≤ s.num ∧ 0 < s.den) :
    (∀ wv : ℤ, 0 < wv →
      ∃ hder : ℤ,
        aspect_corrections (some sw) (some sh) (some wv) none sar rotate mode =
          some (some wv, some hder, none) ∧
        |Qv.mround (Qv.div (Qv.ofInt wv) (aspectOf sw sh sar rotate)) - hder| ≤ 1) ∧
    (∀ hv : ℤ, 0 < hv →
      ∃ wder : ℤ,
        aspect_corrections (some sw) (some sh) none (some hv) sar rotate mode =
          some (some wder, some hv, none) ∧
        |Qv.mround (Qv.mul (aspectOf sw sh sar rotate) (Qv.ofInt hv)) - wder| ≤ 1) := by
  obtain ⟨han, had⟩ := aspectOf_pos sw sh sar rotate hsw hsh hsar
  constructor
  · intro wv hw
    refine ⟨(Qv.div (Qv.ofInt wv) (aspectOf sw sh sar rotate)).trunc, ?_, ?_⟩
    · simp only [aspect_corrections, Qv.mul_one_left, Option.getD_some]
      rw [if_neg (by simp [optTruthy]; omega),
          if_neg (by simp [optTruthy]; omega),
          if_pos (by simp [optTruthy]; omega)]
    · have hvnum : 0 ≤ (Qv.div (Qv.ofInt wv) (aspectOf sw sh sar rotate)).num := by
        unfold Qv.div
        rw [if_pos han]
        exact le_of_lt (mul_pos hw had)
      have hvden : 0 < (Qv.div (Qv.ofInt wv) (aspectOf sw sh sar rotate)).den := by
        unfold Qv.div
        rw [if_pos han]
        exact mul_pos one_pos han
      have hb := Qv.mround_trunc_bounds hvnum hvden
      apply abs_le.mpr
      omega
  · intro hv hh
    refine ⟨(Qv.mul (aspectOf sw sh sar rotate) (Qv.ofInt hv)).trunc, ?_, ?_⟩
    · simp only [aspect_corrections, Qv.mul_one_left, Option.getD_some]
      rw [if_neg (by simp [optTruthy]; omega),
          if_neg (by simp [optTruthy]; omega),
          if_neg (by simp [optTruthy]),
          if_pos (by simp [optTruthy]; omega)]
    · have hvnum : 0 ≤ (Qv.mul (aspectOf sw sh sar rotate) (Qv.ofInt hv)).num :=
        le_of_lt (mul_pos han hh)
      have hvden : 0 < (Qv.mul (aspectOf sw sh sar rotate) (Qv.ofInt hv)).den :=
        mul_pos had one_pos
      have hb := Qv.mround_trunc_bounds hvnum hvden
      apply abs_le.mpr
      omega

set_option maxHeartbeats 1000000 in
/-- C10: in the video compiler, a requested `pix_fmt` that IS in the
codec's `formats_supported` list is deleted from the safe options
(video.py lines 181-184), so the emitted `-pix_fmt` flag falls back to
the default `yuv420p` (line 244); a `pix_fmt` NOT in the list is passed
through verbatim.  Stated for `H263Codec`, whose hooks are the base
no-ops. -/
theorem C10_pix_fmt_inverted_passthrough :
    (∀ p, p ∈ formats_supported →
      VideoCodec.parse_options H263Codec [("codec", .vStr "h263"), ("pix_fmt", .vStr p)] =
        .ok ["-vcodec", "h263", "-pix_fmt", "yuv420p"]) ∧
    (∀ p, p ∉ formats_supported →
      VideoCodec.parse_options H263Codec [("codec", .vStr "h263"), ("pix_fmt", .vStr p)] =
        .ok ["-vcodec", "h263", "-pix_fmt", p]) := by
  constructor <;>
  · intro p hm
    simp [VideoCodec.parse_options, baseCodecCheck, codecNameMatches, H263Codec,
      videoEncoderOptions, safe_options, schemaLookup, coerce, pyStr, safeStr, safeInt,
      safeFloat, delIfOutOfRange, dlookup, dmem, ddel, dset, optTruthy,
      aspect_corrections, aspectOf, Except.bind, hm]

theorem C10_pix_fmt_inverted_passthrough_witness :
    VideoCodec.parse_options H263Codec [("codec", .vStr "h263"), ("pix_fmt", .vStr "yuv420p")] =
      .ok ["-vcodec", "h263", "-pix_fmt", "yuv420p"] ∧
    VideoCodec.parse_options H263Codec [("codec", .vStr "h263"), ("pix_fmt", .vStr "nv99")] =
      .ok ["-vcodec", "h263", "-pix_fmt", "nv99"] :=
  ⟨C10_pix_fmt_inverted_passthrough.1 "yuv420p" (by decide),
   C10_pix_fmt_inverted_passthrough.2 "nv99" (by decide)⟩

set_option maxHeartbeats 2000000 in
/-- C4: a numeric stream option outside its documented range (audio
channels 1..12, bitrate 8..512, samplerate 1000..50000; video fps 1..120,
keyframe_interval 1..1500, bitrate and max_bitrate 16..15000) contributes
no flag at all to the emitted list, while an in-range value is emitted
unchanged — the full output list is characterized for every integer
value, so values are never clamped.  Stated for `Ac3Codec` and
`H263Codec`, whose family hooks are the base no-ops. -/
theorem C4_out_of_range_options_dropped_not_clamped :
    (∀ c br sr : ℤ,
      AudioCodec.parse_options Ac3Codec
        [("codec", .vStr "ac3"), ("channels", .vInt c), ("bitrate", .vInt br),
         ("samplerate", .vInt sr)] =
      .ok (["-acodec", "ac3"] ++
        (if c < 1 ∨ 12 < c then [] else ["-ac", toString c]) ++
        (if br < 8 ∨ 512 < br then [] else ["-ab", toString br ++ "k"]) ++
        (if sr < 1000 ∨ 50000 < sr then [] else ["-ar", toString sr]))) ∧
    (∀ f ki vbr mbr : ℤ,
      VideoCodec.parse_options H263Codec
        [("codec", .vStr "h263"), ("fps", .vInt f), ("keyframe_interval", .vInt ki),
         ("bitrate", .vInt vbr), ("max_bitrate", .vInt mbr)] =
      .ok (["-vcodec", "h263", "-pix_fmt", "yuv420p"] ++
        (if f < 1 ∨ 120 < f then [] else ["-r", toString f]) ++
        (if ki < 1 ∨ 1500 < ki then [] else ["-g", toString ki]) ++
        (if vbr < 16 ∨ 15000 < vbr then [] else ["-vb", toString vbr ++ "k"]) ++
        (if mbr < 16 ∨ 15000 < mbr then []
         else ["-maxrate", toString mbr ++ "k", "-bufsize", toString mbr ++ "k"]))) := by
  constructor
  · intro c br sr
    by_cases h1 : c < 1 ∨ 12 < c <;> by_cases h2 : br < 8 ∨ 512 < br <;>
      by_cases h3 : sr < 1000 ∨ 50000 < sr <;>
      simp [AudioCodec.parse_options, baseCodecCheck, codecNameMatches, Ac3Codec,
        audioEncoderOptions, safe_options, schemaLookup, coerce, pyStr, pyToInt, safeInt,
        delIfOutOfRange, dlookup, dmem, ddel, Except.bind, h1, h2, h3]
  · intro f ki vbr mbr
    by_cases h1 : f < 1 ∨ 120 < f <;> by_cases h2 : ki < 1 ∨ 1500 < ki <;>
      by_cases h3 : vbr < 16 ∨ 15000 < vbr <;> by_cases h4 : mbr < 16 ∨ 15000 < mbr <;>
      simp [VideoCodec.parse_options, baseCodecCheck, codecNameMatches, H263Codec,
        videoEncoderOptions, safe_options, schemaLookup, coerce, pyStr, pyToInt, safeStr,
        safeInt, safeFloat, delIfOutOfRange, dlookup, dmem, ddel, dset, optTruthy,
        aspect_corrections, aspectOf, Except.bind, h1, h2, h3, h4]

theorem except_bind_ok (a : α) (k : α → Except ε β) :
    (Except.ok a >>= k) = k a := rfl

theorem except_bind_error (e : ε) (k : α → Except ε β) :
    ((Except.error e : Except ε α) >>= k) = Except.error e := rfl

/-- C2: every request accepted by `Converter.parse_options` (with no
two-pass flag) compiles to exactly the audio flags, then the video flags,
then the subtitle flags, then the format flags, then the optional `-map`
flags, each produced by the corresponding compiler block; and the spec's
scenario holds: `{format: 'ogg', video: {codec: 'theora', fps: 25}}` with
no audio key compiles to the audio-disable flag, the theora codec flags
(including the default pixel format and the fps flag), the
subtitle-disable flag and the ogg format flag, in that order. -/
theorem C2_flag_order_and_ogg_theora_scenario :
    (∀ opt l, Converter.parse_options (.vDict opt) none = .ok l →
      ∃ a v s f m, Converter.audioOptions opt none = .ok a ∧
        Converter.videoOptions opt = .ok v ∧
        Converter.subtitleOptions opt = .ok s ∧
        Converter.formatOptions opt = .ok f ∧
        Converter.mapOptions opt = .ok m ∧
        l = a ++ v ++ s ++ (f ++ m)) ∧
    Converter.parse_options (.vDict [("format", .vStr "ogg"),
        ("video", .vDict [("codec", .vStr "theora"), ("fps", .vInt 25)])]) none =
      .ok ["-an", "-vcodec", "libtheora", "-pix_fmt", "yuv420p", "-r", "25", "-sn", "-f", "ogg"] := by
  refine ⟨?_, rfl⟩
  intro opt l hyp
  simp only [Converter.parse_options] at hyp
  rcases hf : Converter.formatOptions opt with e | fv
  · rw [hf, except_bind_error] at hyp; exact Except.noConfusion hyp
  rw [hf, except_bind_ok] at hyp
  by_cases hav : ¬ dmem opt "audio" ∧ ¬ dmem opt "video"
  · rw [if_pos hav] at hyp; exact Except.noConfusion hyp
  rw [if_neg hav] at hyp
  rcases ha : Converter.audioOptions opt none with e | av
  · rw [ha, except_bind_error] at hyp; exact Except.noConfusion hyp
  rw [ha, except_bind_ok] at hyp
  rcases hv : Converter.videoOptions opt with e | vv
  · rw [hv, except_bind_error] at hyp; exact Except.noConfusion hyp
  rw [hv, except_bind_ok] at hyp
  rcases hs : Converter.subtitleOptions opt with e | sv
  · rw [hs, except_bind_error] at hyp; exact Except.noConfusion hyp
  rw [hs, except_bind_ok] at hyp
  rcases hm : Converter.mapOptions opt with e | mv
  · rw [hm, except_bind_error] at hyp; exact Except.noConfusion hyp
  rw [hm, except_bind_ok] at hyp
  have h2 : av ++ vv ++ sv ++ (fv ++ mv) ++ ([] : List String) = l := Except.ok.inj hyp
  rw [List.append_nil] at h2
  exact ⟨av, vv, sv, fv, mv, rfl, rfl, rfl, rfl, rfl, h2.symm⟩

theorem C2_flag_order_and_ogg_theora_scenario_witness :
    ∃ a v s f m,
      Converter.audioOptions [("format", .vStr "ogg"),
        ("video", .vDict [("codec", .vStr "theora"), ("fps", .vInt 25)])] none = .ok a ∧
      Converter.videoOptions [("format", .vStr "ogg"),
        ("video", .vDict [("codec", .vStr "theora"), ("fps", .vInt 25)])] = .ok v ∧
      Converter.subtitleOptions [("format", .vStr "ogg"),
        ("video", .vDict [("codec", .vStr "theora"), ("fps", .vInt 25)])] = .ok s ∧
      Converter.formatOptions [("format", .vStr "ogg"),
        ("video", .vDict [("codec", .vStr "theora"), ("fps", .vInt 25)])] = .ok f ∧
      Converter.mapOptions [("format", .vStr "ogg"),
        ("video", .vDict [("codec", .vStr "theora"), ("fps", .vInt 25)])] = .ok m ∧
      ["-an", "-vcodec", "libtheora", "-pix_fmt", "yuv420p", "-r", "25", "-sn", "-f", "ogg"] =
        a ++ v ++ s ++ (f ++ m) :=
  C2_flag_order_and_ogg_theora_scenario.1
    [("format", .vStr "ogg"),
     ("video", .vDict [("codec", .vStr "theora"), ("fps", .vInt 25)])]
    ["-an", "-vcodec", "libtheora", "-pix_fmt", "yuv420p", "-r", "25", "-sn", "-f", "ogg"] rfl

theorem C3_crop_pad_box_invariant_witness :
    (∃ wv hv w2v h2v, (some 320 : Option ℤ) = some wv ∧ (some 240 : Option ℤ) = some hv ∧
      (some 384 : Option ℤ) = some w2v ∧ (some 240 : Option ℤ) = some h2v ∧
      wv ≤ w2v ∧ hv ≤ h2v) ∧
    (∃ wv hv w2v h2v, (some 320 : Option ℤ) = some wv ∧ (some 240 : Option ℤ) = some hv ∧
      (some 320 : Option ℤ) = some w2v ∧ (some 200 : Option ℤ) = some h2v ∧
      w2v ≤ wv ∧ h2v ≤ hv) :=
  ⟨C3_crop_pad_box_invariant.1 (some 640) (some 400) (some 320) (some 240) none none
      (some 384) (some 240) "crop=320:240:32:0" rfl,
   C3_crop_pad_box_invariant.2.1 (some 640) (some 400) (some 320) (some 240) none none
      (some 320) (some 200) "pad=320:240:0:20" rfl⟩

theorem C9_missing_dimension_from_aspect_witness :
    (∃ hder : ℤ,
      aspect_corrections (some 640) (some 480) (some 320) none none none "stretch" =
        some (some 320, some hder, none) ∧
      |Qv.mround (Qv.div (Qv.ofInt 320) (aspectOf 640 480 none none)) - hder| ≤ 1) ∧
    (∃ wder : ℤ,
      aspect_corrections (some 640) (some 480) none (some 240) none none "stretch" =
        some (some wder, some 240, none) ∧
      |Qv.mround (Qv.mul (aspectOf 640 480 none none) (Qv.ofInt 240)) - wder| ≤ 1) :=
  ⟨(C9_missing_dimension_from_aspect 640 480 none none "stretch"
      (by decide) (by decide) (fun s hs => Option.noConfusion hs)).1 320 (by decide),
   (C9_missing_dimension_from_aspect 640 480 none none "stretch"
      (by decide) (by decide) (fun s hs => Option.noConfusion hs)).2 240 (by decide)⟩

theorem errsOf_nil : errsOf [] = [] := rfl

theorem errsOf_engineStart (p fl : List String) (rest : List ConvEv) :
    errsOf (ConvEv.engineStart p fl :: rest) = errsOf rest := by
  simp [errsOf]

theorem errsOf_append (a b : List ConvEv) : errsOf (a ++ b) = errsOf a ++ errsOf b := by
  simp [errsOf]

theorem errsOf_progress_map (f : Qv → Qv) (l : List Qv) :
    errsOf (l.map (fun t => ConvEv.progress (f t))) = [] := by
  induction l with
  | nil => rfl
  | cons x xs _ => simp [errsOf]

/-- C6 counterexample: the claim says every configuration error is raised
before any engine process starts.  Driving a two-pass conversion whose
request names the unknown audio codec `bogus` starts the pass-1 engine
process (audio is forced off in pass 1, masking the bad codec), yields a
progress value, and only then raises the unknown-audio-codec error from
compiling the pass-2 flags (__init__.py line 202 runs after the line
198-200 engine loop). -/
theorem C6_counterexample_error_after_engine_start :
    Converter.convert true (some ⟨none, true, ⟨10, 1⟩⟩)
        (.vDict [("format", .vStr "ogg"), ("audio", .vDict [("codec", .vStr "bogus")])])
        true [⟨2, 1⟩] [] =
      [.engineStart [] ["-an", "-vn", "-sn", "-f", "ogg", "-pass", "1"],
       .progress ⟨2, 10⟩, .err "Requested unknown audio codec bogus"] := rfl

/-- C6 amended: every driven `convert` run either raises a single error
with no engine start (all single-pass configuration and input errors, and
pass-1 errors of two-pass runs, are detected before the engine starts),
or raises no error at all, or — only in two-pass mode — starts the pass-1
engine process, yields its progress, and then raises a pass-2
flag-compilation error. -/
theorem C6_errors_before_engine_except_pass2 :
    ∀ (infileExists : Bool) (probeResult : Option MediaInfo) (options : PyVal)
      (twopass : Bool) (tc1 tc2 : List Qv),
      (∃ msg, Converter.convert infileExists probeResult options twopass tc1 tc2 =
        [.err msg]) ∨
      errsOf (Converter.convert infileExists probeResult options twopass tc1 tc2) = [] ∨
      (twopass = true ∧ ∃ (pre fl : List String) (ts : List Qv) (msg : String),
        Converter.convert infileExists probeResult options twopass tc1 tc2 =
          .engineStart pre fl :: (ts.map ConvEv.progress ++ [.err msg])) := by
  intro fe pr options tp tc1 tc2
  rcases options with s | n | q | b | _ | optd
  case vStr => exact Or.inl ⟨"Invalid options", rfl⟩
  case vInt => exact Or.inl ⟨"Invalid options", rfl⟩
  case vFloat => exact Or.inl ⟨"Invalid options", rfl⟩
  case vBool => exact Or.inl ⟨"Invalid options", rfl⟩
  case vNone => exact Or.inl ⟨"Invalid options", rfl⟩
  rcases fe with _ | _
  · exact Or.inl ⟨"Source file does not exist", rfl⟩
  rcases pr with _ | info
  · exact Or.inl ⟨"Cannot get information about source file", rfl⟩
  by_cases hstr : info.video = none ∧ info.audio = false
  · exact Or.inl ⟨"Source file has no audio or video streams",
      by simp [Converter.convert, hstr]⟩
  rcases hprep : Converter.convertPrepValue optd info with e | pair
  · exact Or.inl ⟨e, by simp [Converter.convert, hstr, hprep]⟩
  rcases pair with ⟨optd2, preopt⟩
  by_cases hdur : Qv.lt info.duration ⟨1, 100⟩
  · exact Or.inl ⟨"Zero-length media", by simp [Converter.convert, hstr, hprep, hdur]⟩
  rcases tp with _ | _
  · rcases hparse : Converter.parse_options (.vDict optd2) none with e | ol
    · exact Or.inl ⟨e, by simp [Converter.convert, hstr, hprep, hdur, hparse]⟩
    · refine Or.inr (Or.inl ?_)
      simp [Converter.convert, hstr, hprep, hdur, hparse,
        errsOf_engineStart, errsOf_progress_map]
  · rcases hparse1 : Converter.parse_options (.vDict optd2) (some 1) with e | ol1
    · exact Or.inl ⟨e, by simp [Converter.convert, hstr, hprep, hdur, hparse1]⟩
    rcases hparse2 : Converter.parse_options (.vDict optd2) (some 2) with e | ol2
    · refine Or.inr (Or.inr ⟨rfl, preopt, ol1,
        tc1.map (fun t => Qv.div t info.duration), e, ?_⟩)
      simp [Converter.convert, hstr, hprep, hdur, hparse1, hparse2, List.map_map,
        Function.comp]
    · refine Or.inr (Or.inl ?_)
      simp [Converter.convert, hstr, hprep, hdur, hparse1, hparse2,
        errsOf_engineStart, errsOf_append, errsOf_progress_map, errsOf]

theorem le_foldr_max (l : List ℕ) (a : ℕ) (ha : a ∈ l) :
    a ≤ l.foldr (fun x y => max x y) 0 := by
  induction l with
  | nil => simp at ha
  | cons x xs ih =>
    rcases List.mem_cons.mp ha with rfl | hmem
    · exact le_max_left _ _
    · exact le_trans (ih hmem) (le_max_right _ _)

theorem foldr_max_init_mono (l : List ℕ) (a b : ℕ) (hab : a ≤ b) :
    l.foldr (fun x y => max x y) a ≤ l.foldr (fun x y => max x y) b := by
  induction l with
  | nil => exact hab
  | cons x xs ih => exact max_le_max le_rfl ih

theorem mem_lt_freshRef (h : Heap) (r : ℕ) (hr : r ∈ h.map Prod.fst) :
    r < freshRef h := by
  unfold freshRef
  exact Nat.lt_succ_of_le (le_foldr_max _ _ hr)

theorem freshRef_le_freshRef_append (h : Heap) (x : ℕ × HDict) :
    freshRef h ≤ freshRef (h ++ [x]) := by
  unfold freshRef
  rw [List.map_append, List.foldr_append]
  simp only [List.map_cons, List.map_nil, List.foldr_cons, List.foldr_nil]
  have := foldr_max_init_mono (h.map Prod.fst) 0 (max x.1 0) (Nat.zero_le _)
  omega

theorem heapGet_isSome_of_mem (h : Heap) (r : ℕ) (hr : r ∈ h.map Prod.fst) :
    (heapGet h r).isSome := by
  induction h with
  | nil => simp at hr
  | cons x xs ih =>
    simp only [List.map_cons, List.mem_cons] at hr
    by_cases he : r = x.1
    · simp [heapGet, he]
    · simp only [heapGet, he, if_false]
      exact ih (hr.resolve_left he)

theorem heapGet_append (h : Heap) (r : ℕ) (x : ℕ × HDict)
    (hr : (heapGet h r).isSome) : heapGet (h ++ [x]) r = heapGet h r := by
  induction h with
  | nil => simp [heapGet] at hr
  | cons y ys ih =>
    by_cases he : r = y.1
    · simp [heapGet, he]
    · simp only [List.cons_append, heapGet, he, if_false] at hr ⊢
      exact ih hr

theorem heapGet_heapSet_ne (h : Heap) (r rt : ℕ) (d : HDict) (hne : r ≠ rt) :
    heapGet (heapSet h rt d) r = heapGet h r := by
  induction h with
  | nil => rfl
  | cons y ys ih =>
    by_cases he : rt = y.1
    · have hny : r ≠ y.1 := fun hh => hne (he ▸ hh)
      simp [heapSet, heapGet, he, hny]
    · simp [heapSet, heapGet, he, ih]

set_option maxHeartbeats 1000000 in
/-- C8: the only dictionary assignments executed by `Converter.convert`
(the `src_width`/`src_height` injection of __init__.py lines 184-191)
write exclusively into dictionaries freshly allocated by `.copy()`, so
every dictionary the caller passed in — the request mapping and all its
nested sub-mappings — is unchanged after the call: the heap after the
preprocessing agrees with the heap before it on every previously
allocated reference.  Everything downstream (`parse_options` and the
per-family compilers) only reads the request, as transcribed by the
value-level functions above, so a two-pass `convert` driven to completion
or failure leaves the caller's mapping deeply equal to its pre-call
value. -/
theorem C8_convert_leaves_caller_dicts_unchanged (h : Heap) (optionsRef : ℕ)
    (hasVideoInfo : Bool) (vw vh : ℤ) (r : ℕ) (hr : r ∈ h.map Prod.fst) :
    heapGet (Converter.convertPrepHeap h optionsRef hasVideoInfo vw vh).1 r =
      heapGet h r := by
  have hrlt := mem_lt_freshRef h r hr
  have hrsome := heapGet_isSome_of_mem h r hr
  have hn1 : r ≠ freshRef h := Nat.ne_of_lt hrlt
  rcases hget : heapGet h optionsRef with _ | od
  · simp [Converter.convertPrepHeap, hget]
  by_cases hcond : hasVideoInfo ∧ (hdlookup od "video").isSome
  · have hget1 : heapGet (h ++ [(freshRef h, od)]) r = heapGet h r :=
      heapGet_append h r _ hrsome
    have hsome1 : (heapGet (h ++ [(freshRef h, od)]) r).isSome := by
      rw [hget1]; exact hrsome
    have hn2 : r ≠ freshRef (h ++ [(freshRef h, od)]) :=
      Nat.ne_of_lt (lt_of_lt_of_le hrlt (freshRef_le_freshRef_append h _))
    rcases hvid : hdlookup od "video" with _ | hv
    · rw [hvid] at hcond
      simp at hcond
    rcases hv with sv | nv | qv | bv | _ | vr
    · simp [Converter.convertPrepHeap, hget, hcond, hvid, heapAlloc, hget1]
    · simp [Converter.convertPrepHeap, hget, hcond, hvid, heapAlloc, hget1]
    · simp [Converter.convertPrepHeap, hget, hcond, hvid, heapAlloc, hget1]
    · simp [Converter.convertPrepHeap, hget, hcond, hvid, heapAlloc, hget1]
    · simp [Converter.convertPrepHeap, hget, hcond, hvid, heapAlloc, hget1]
    · rcases hget2 : heapGet (h ++ [(freshRef h, od)]) vr with _ | vd
      · simp [Converter.convertPrepHeap, hget, hcond, hvid, heapAlloc, hget2, hget1]
      · simp only [Converter.convertPrepHeap, hget, hcond, hvid, hget2, heapAlloc,
          Option.isSome_some, true_and, and_true, if_true]
        rw [heapGet_heapSet_ne _ _ _ _ hn2, heapGet_heapSet_ne _ _ _ _ hn1,
          heapGet_append _ _ _ hsome1, hget1]
  · simp [Converter.convertPrepHeap, hget, hcond]

theorem C8_convert_leaves_caller_dicts_unchanged_witness :
    heapGet (Converter.convertPrepHeap
        [(1, [("format", HVal.hStr "ogg"), ("video", HVal.hRef 2)]),
         (2, [("codec", HVal.hStr "theora")])] 1 true 720 400).1 1 =
      heapGet [(1, [("format", HVal.hStr "ogg"), ("video", HVal.hRef 2)]),
        (2, [("codec", HVal.hStr "theora")])] 1 ∧
    heapGet (Converter.convertPrepHeap
        [(1, [("format", HVal.hStr "ogg"), ("video", HVal.hRef 2)]),
         (2, [("codec", HVal.hStr "theora")])] 1 true 720 400).1 2 =
      heapGet [(1, [("format", HVal.hStr "ogg"), ("video", HVal.hRef 2)]),
        (2, [("codec", HVal.hStr "theora")])] 2 :=
  ⟨C8_convert_leaves_caller_dicts_unchanged _ 1 true 720 400 1 (by decide),
   C8_convert_leaves_caller_dicts_unchanged _ 1 true 720 400 2 (by decide)⟩

/-!
## Validation against the repository's test expectations

The following equalities mirror assertions of `test/test.py` and hold by
evaluation, tying the embedding to the source's own test suite.
-/

theorem validation_parse_options_ogg_theora :
    Converter.parse_options
      (.vDict [("format", .vStr "ogg"),
               ("video", .vDict [("codec", .vStr "theora"), ("fps", .vInt 25)])]) none =
    .ok ["-an", "-vcodec", "libtheora", "-pix_fmt", "yuv420p", "-r", "25", "-sn", "-f", "ogg"] := rfl

theorem validation_parse_options_copy_codecs :
    Converter.parse_options
      (.vDict [("format", .vStr "ogg"),
               ("audio", .vDict [("codec", .vStr "copy")]),
               ("video", .vDict [("codec", .vStr "copy")]),
               ("subtitle", .vDict [("codec", .vNone)])]) none =
    .ok ["-acodec", "copy", "-vcodec", "copy", "-sn", "-f", "ogg"] := rfl

theorem validation_audio_out_of_range_all_dropped :
    AudioCodec.parse_options Ac3Codec
      [("codec", .vStr "ac3"), ("channels", .vInt 0), ("bitrate", .vInt 0),
       ("samplerate", .vInt 0)] = .ok ["-acodec", "ac3"] := rfl

theorem validation_audio_string_coercion :
    AudioCodec.parse_options Ac3Codec
      [("codec", .vStr "ac3"), ("channels", .vStr "1"), ("bitrate", .vStr "64"),
       ("samplerate", .vStr "44100")] =
    .ok ["-acodec", "ac3", "-ac", "1", "-ab", "64k", "-ar", "44100"] := rfl

theorem validation_video_crop :
    VideoCodec.parse_options H263Codec
      [("codec", .vStr "h263"), ("src_width", .vInt 640), ("src_height", .vInt 400),
       ("mode", .vStr "crop"), ("width", .vInt 320), ("height", .vInt 240)] =
    .ok ["-vcodec", "h263", "-pix_fmt", "yuv420p", "-s", "384x240", "-aspect", "320:240",
         "-vf", "crop=320:240:32:0"] := rfl

theorem validation_video_pad :
    aspect_corrections (some 640) (some 480) (some 320) (some 200) none none "pad" =
      some (some 266, some 200, some "pad=320:200:27:0") := rfl

theorem validation_video_derive_height :
    VideoCodec.parse_options H263Codec
      [("codec", .vStr "h263"), ("src_width", .vInt 640), ("src_height", .vInt 480),
       ("width", .vInt 320)] =
    .ok ["-vcodec", "h263", "-pix_fmt", "yuv420p", "-s", "320x240"] := rfl

theorem validation_mp4_format_plain :
    BaseFormat.parse_options Mp4Format [("format", .vStr "mp4")] = .ok ["-f", "mp4"] := rfl

theorem validation_video_derive_width :
    VideoCodec.parse_options H263Codec
      [("codec", .vStr "h263"), ("src_width", .vInt 640), ("src_height", .vInt 480),
       ("height", .vInt 240)] =
    .ok ["-vcodec", "h263", "-pix_fmt", "yuv420p", "-s", "320x240"] := rfl
